import Mathlib

/-!
# UHK module slave driver (`right/src/slave_drivers/uhk_module_driver.c`)

A shallow embedding of the per-module driver of the right keyboard half:
`UhkModuleSlaveDriver_Init`, `UhkModuleSlaveDriver_Update` and
`UhkModuleSlaveDriver_Disconnect`, together with the global state they act on.

Conventions of the embedding.

* C arrays whose bounds live in headers that are not part of the source file
  (`UhkModuleVars`, `uhkModuleStates`, `CurrentKeyStates`, `Slaves`, the payload
  of an `i2c_message_t`) are total functions on `Nat`; a store is a pointwise
  function update.
* `uint8_t` values are `Nat`; the only arithmetic of the driver,
  `uhkModuleDriverId + 1`, is reduced modulo `2 ^ 8`.
* Constants that come from absent headers are the fields of `Config`.
* The external collaborators of one call (bus layer, checksum validator, bit
  unpacker) are the fields of `Env`; a sequence of calls takes one `Env` per call.
* `UhkModuleSlaveDriver_Update` returns, next to the status and the new globals,
  the list of bus operations it issued.
-/

namespace UhkModuleDriver

/-- The C type `status_t` (a signed 32 bit integer). -/
abbrev status_t := Int

/-- The enumeration `uhk_module_phase_t`: one constructor per `case` label of the
`switch` in `UhkModuleSlaveDriver_Update`, in the order of the labels. -/
inductive uhk_module_phase_t where
  | UhkModulePhase_RequestSync
  | UhkModulePhase_ReceiveSync
  | UhkModulePhase_ProcessSync
  | UhkModulePhase_RequestProtocolVersion
  | UhkModulePhase_ReceiveProtocolVersion
  | UhkModulePhase_ProcessProtocolVersion
  | UhkModulePhase_RequestModuleId
  | UhkModulePhase_ReceiveModuleId
  | UhkModulePhase_ProcessModuleId
  | UhkModulePhase_RequestModuleFeatures
  | UhkModulePhase_ReceiveModuleFeatures
  | UhkModulePhase_ProcessModuleFeatures
  | UhkModulePhase_RequestKeyStates
  | UhkModulePhase_ReceiveKeystates
  | UhkModulePhase_ProcessKeystates
  | UhkModulePhase_SetTestLed
  | UhkModulePhase_SetLedPwmBrightness
  deriving DecidableEq, Repr

open uhk_module_phase_t

/-- The C struct `i2c_message_t`: a length, the checksum trailer and the payload
bytes. The driver reads and writes `length` and `data`; `crc` is only seen by the
validator. -/
structure i2c_message_t where
  length : Nat
  crc : Nat
  data : Nat → Nat

/-- The C struct `uhk_module_vars_t`: the two output attributes of a module. -/
structure uhk_module_vars_t where
  isTestLedOn : Bool
  ledPwmBrightness : Nat
  deriving DecidableEq, Repr

/-- The C struct `uhk_module_state_t`. The feature record `uhk_module_features_t`
is kept as its byte image (the bytes `memcpy` stores into it). -/
structure uhk_module_state_t where
  moduleId : Nat
  protocolVersion : Nat
  features : List Nat
  isEnumerated : Bool
  phase : uhk_module_phase_t
  targetVars : uhk_module_vars_t
  rxMessage : i2c_message_t
  firmwareI2cAddress : Nat
  bootloaderI2cAddress : Nat

/-- The C struct `uhk_module_i2c_addresses_t`. -/
structure uhk_module_i2c_addresses_t where
  firmwareI2cAddress : Nat
  bootloaderI2cAddress : Nat
  deriving DecidableEq, Repr

/-- Constants and layout facts the driver takes from headers that are not part of
the source file. -/
structure Config where
  kStatus_Uhk_IdleSlave : status_t
  kStatus_Uhk_NoTransfer : status_t
  SlaveCommand_RequestProperty : Nat
  SlaveCommand_RequestKeyStates : Nat
  SlaveCommand_SetTestLed : Nat
  SlaveCommand_SetLedPwmBrightness : Nat
  SlaveProperty_Sync : Nat
  SlaveProperty_ProtocolVersion : Nat
  SlaveProperty_ModuleId : Nat
  SlaveProperty_Features : Nat
  SlaveSyncString : Nat → Nat
  SLAVE_SYNC_STRING_LENGTH : Nat
  MAX_PWM_BRIGHTNESS : Nat
  I2C_ADDRESS_LEFT_KEYBOARD_HALF_FIRMWARE : Nat
  I2C_ADDRESS_LEFT_KEYBOARD_HALF_BOOTLOADER : Nat
  I2C_ADDRESS_LEFT_ADDON_FIRMWARE : Nat
  I2C_ADDRESS_LEFT_ADDON_BOOTLOADER : Nat
  I2C_ADDRESS_RIGHT_ADDON_FIRMWARE : Nat
  I2C_ADDRESS_RIGHT_ADDON_BOOTLOADER : Nat
  SlaveId_LeftKeyboardHalf : Nat
  SlaveId_LeftLedDriver : Nat
  /-- The value of `sizeof(uhk_module_features_t)`. -/
  sizeof_uhk_module_features_t : Nat
  /-- The byte offset of the member `keyCount` in `uhk_module_features_t`. -/
  offsetof_keyCount : Nat

/-- The external collaborators of one driver call.

* `I2cAsyncWriteMessage address message` is the status the bus layer returns for
  the write.
* `I2cAsyncReadMessage address buffer` is the status the bus layer returns for the
  read, and the contents of the receive buffer once the read has completed.
* `CRC16_IsMessageValid` is the checksum validator.
* `BoolBitsToBytes src dst count` is the destination array after the unpacker has
  run on it. -/
structure Env where
  I2cAsyncWriteMessage : Nat → i2c_message_t → status_t
  I2cAsyncReadMessage : Nat → i2c_message_t → status_t × i2c_message_t
  CRC16_IsMessageValid : i2c_message_t → Bool
  BoolBitsToBytes : (Nat → Nat) → (Nat → Bool) → Nat → (Nat → Bool)

/-- The global variables the driver reads and writes. -/
structure Globals where
  UhkModuleVars : Nat → uhk_module_vars_t
  uhkModuleStates : Nat → uhk_module_state_t
  txMessage : i2c_message_t
  CurrentKeyStates : Nat → Nat → Bool
  /-- The member `isConnected` of the entries of the table `Slaves`. -/
  Slaves_isConnected : Nat → Bool

/-- One operation handed to the bus layer. -/
inductive BusOp where
  | write (i2cAddress : Nat) (message : i2c_message_t)
  | read (i2cAddress : Nat)

/-- What one call of `UhkModuleSlaveDriver_Update` yields: the returned status,
the bus operations issued during the call, and the globals after the call. -/
structure UpdateResult where
  status : status_t
  ops : List BusOp
  globals : Globals

/-- A store `a[i] = v` into an array modelled as a function. -/
def store {α : Type} (a : Nat → α) (i : Nat) (v : α) : Nat → α :=
  fun j => if j = i then v else a j

/-- The conversion of a C `bool` to `uint8_t`. -/
def boolToByte (b : Bool) : Nat := if b then 1 else 0

/-- The test `memcmp(a, b, n) == 0` on byte arrays. -/
def memcmpEq (a b : Nat → Nat) (n : Nat) : Bool :=
  (List.range n).all (fun i => a i == b i)

/-- The bytes `memcpy(dst, src, n)` stores at `dst`. -/
def memcpyBytes (src : Nat → Nat) (n : Nat) : List Nat :=
  (List.range n).map src

/-- The member `keyCount` read out of the byte image of a feature record. -/
def keyCount (cfg : Config) (features : List Nat) : Nat :=
  features.getD cfg.offsetof_keyCount 0

/-- The static table `moduleIdsToI2cAddresses`. -/
def moduleIdsToI2cAddresses (cfg : Config) : List uhk_module_i2c_addresses_t :=
  [ { firmwareI2cAddress := cfg.I2C_ADDRESS_LEFT_KEYBOARD_HALF_FIRMWARE,
      bootloaderI2cAddress := cfg.I2C_ADDRESS_LEFT_KEYBOARD_HALF_BOOTLOADER },
    { firmwareI2cAddress := cfg.I2C_ADDRESS_LEFT_ADDON_FIRMWARE,
      bootloaderI2cAddress := cfg.I2C_ADDRESS_LEFT_ADDON_BOOTLOADER },
    { firmwareI2cAddress := cfg.I2C_ADDRESS_RIGHT_ADDON_FIRMWARE,
      bootloaderI2cAddress := cfg.I2C_ADDRESS_RIGHT_ADDON_BOOTLOADER } ]

/-- The assignments `txMessage.data[0] = b0; txMessage.data[1] = b1;
txMessage.length = 2;`. -/
def setTx2 (m : i2c_message_t) (b0 b1 : Nat) : i2c_message_t :=
  { m with data := store (store m.data 0 b0) 1 b1, length := 2 }

/-- The assignments `txMessage.data[0] = b0; txMessage.length = 1;`. -/
def setTx1 (m : i2c_message_t) (b0 : Nat) : i2c_message_t :=
  { m with data := store m.data 0 b0, length := 1 }

/-- The static function `tx` on the transmit buffer `txm`, followed by the stores
into the session record: the buffer is handed to the bus layer for the firmware
address of the session, and the session record becomes `st`. -/
def txStep (env : Env) (g : Globals) (id : Nat) (txm : i2c_message_t)
    (st : uhk_module_state_t) : UpdateResult :=
  let i2cAddress := (g.uhkModuleStates id).firmwareI2cAddress
  { status := env.I2cAsyncWriteMessage i2cAddress txm
    ops := [BusOp.write i2cAddress txm]
    globals := { g with
      txMessage := txm
      uhkModuleStates := store g.uhkModuleStates id st } }

/-- The static function `rx` followed by the phase assignment: a read into the
receive buffer of the session is handed to the bus layer for the firmware address
of the session, and the session moves to `next`. -/
def rxStep (env : Env) (g : Globals) (id : Nat) (next : uhk_module_phase_t) :
    UpdateResult :=
  let st := g.uhkModuleStates id
  let r := env.I2cAsyncReadMessage st.firmwareI2cAddress st.rxMessage
  { status := r.1
    ops := [BusOp.read st.firmwareI2cAddress]
    globals := { g with
      uhkModuleStates := store g.uhkModuleStates id
        { st with rxMessage := r.2, phase := next } } }

/-- A step that issues no bus operation: the status is `kStatus_Uhk_NoTransfer`
and the session record is replaced by `st`. -/
def noTransfer (cfg : Config) (g : Globals) (id : Nat) (st : uhk_module_state_t) :
    UpdateResult :=
  { status := cfg.kStatus_Uhk_NoTransfer
    ops := []
    globals := { g with uhkModuleStates := store g.uhkModuleStates id st } }

/-- The function `UhkModuleSlaveDriver_Init`. The address table is indexed by the
driver id; an id outside the table reads as the zero entry. -/
def UhkModuleSlaveDriver_Init (cfg : Config) (uhkModuleDriverId : Nat) (g : Globals) :
    Globals :=
  let src := g.UhkModuleVars uhkModuleDriverId
  let st := g.uhkModuleStates uhkModuleDriverId
  let addrs := (moduleIdsToI2cAddresses cfg).getD uhkModuleDriverId
    { firmwareI2cAddress := 0, bootloaderI2cAddress := 0 }
  { g with
    UhkModuleVars := store g.UhkModuleVars uhkModuleDriverId
      { src with isTestLedOn := true, ledPwmBrightness := cfg.MAX_PWM_BRIGHTNESS }
    uhkModuleStates := store g.uhkModuleStates uhkModuleDriverId
      { st with
        targetVars := { isTestLedOn := false, ledPwmBrightness := 0 }
        phase := UhkModulePhase_RequestSync
        firmwareI2cAddress := addrs.firmwareI2cAddress
        bootloaderI2cAddress := addrs.bootloaderI2cAddress } }

/-- The function `UhkModuleSlaveDriver_Update`. -/
def UhkModuleSlaveDriver_Update (cfg : Config) (env : Env) (uhkModuleDriverId : Nat)
    (g : Globals) : UpdateResult :=
  let uhkModuleSourceVars := g.UhkModuleVars uhkModuleDriverId
  let uhkModuleState := g.uhkModuleStates uhkModuleDriverId
  let uhkModuleTargetVars := uhkModuleState.targetVars
  let rxMessage := uhkModuleState.rxMessage
  match uhkModuleState.phase with
  -- Sync communication
  | UhkModulePhase_RequestSync =>
      txStep env g uhkModuleDriverId
        (setTx2 g.txMessage cfg.SlaveCommand_RequestProperty cfg.SlaveProperty_Sync)
        { uhkModuleState with phase := UhkModulePhase_ReceiveSync }
  | UhkModulePhase_ReceiveSync =>
      rxStep env g uhkModuleDriverId UhkModulePhase_ProcessSync
  | UhkModulePhase_ProcessSync =>
      let isMessageValid := env.CRC16_IsMessageValid rxMessage
      let isSyncValid :=
        memcmpEq rxMessage.data cfg.SlaveSyncString cfg.SLAVE_SYNC_STRING_LENGTH
      noTransfer cfg g uhkModuleDriverId
        { uhkModuleState with
          phase := if isSyncValid && isMessageValid
            then UhkModulePhase_RequestProtocolVersion
            else UhkModulePhase_RequestSync }
  -- Get protocol version
  | UhkModulePhase_RequestProtocolVersion =>
      txStep env g uhkModuleDriverId
        (setTx2 g.txMessage cfg.SlaveCommand_RequestProperty
          cfg.SlaveProperty_ProtocolVersion)
        { uhkModuleState with phase := UhkModulePhase_ReceiveProtocolVersion }
  | UhkModulePhase_ReceiveProtocolVersion =>
      rxStep env g uhkModuleDriverId UhkModulePhase_ProcessProtocolVersion
  | UhkModulePhase_ProcessProtocolVersion =>
      let st1 := if env.CRC16_IsMessageValid rxMessage
        then { uhkModuleState with protocolVersion := rxMessage.data 0 }
        else uhkModuleState
      noTransfer cfg g uhkModuleDriverId
        { st1 with phase := UhkModulePhase_RequestModuleId }
  -- Get module id
  | UhkModulePhase_RequestModuleId =>
      txStep env g uhkModuleDriverId
        (setTx2 g.txMessage cfg.SlaveCommand_RequestProperty cfg.SlaveProperty_ModuleId)
        { uhkModuleState with phase := UhkModulePhase_ReceiveModuleId }
  | UhkModulePhase_ReceiveModuleId =>
      rxStep env g uhkModuleDriverId UhkModulePhase_ProcessModuleId
  | UhkModulePhase_ProcessModuleId =>
      let st1 := if env.CRC16_IsMessageValid rxMessage
        then { uhkModuleState with moduleId := rxMessage.data 0 }
        else uhkModuleState
      noTransfer cfg g uhkModuleDriverId
        { st1 with phase := UhkModulePhase_RequestModuleFeatures }
  -- Get module features
  | UhkModulePhase_RequestModuleFeatures =>
      txStep env g uhkModuleDriverId
        (setTx2 g.txMessage cfg.SlaveCommand_RequestProperty cfg.SlaveProperty_Features)
        { uhkModuleState with phase := UhkModulePhase_ReceiveModuleFeatures }
  | UhkModulePhase_ReceiveModuleFeatures =>
      rxStep env g uhkModuleDriverId UhkModulePhase_ProcessModuleFeatures
  | UhkModulePhase_ProcessModuleFeatures =>
      let st1 := if env.CRC16_IsMessageValid rxMessage
        then { uhkModuleState with
          features := memcpyBytes rxMessage.data cfg.sizeof_uhk_module_features_t
          isEnumerated := true }
        else uhkModuleState
      noTransfer cfg g uhkModuleDriverId
        { st1 with phase := UhkModulePhase_RequestKeyStates }
  -- Get key states
  | UhkModulePhase_RequestKeyStates =>
      txStep env g uhkModuleDriverId
        (setTx1 g.txMessage cfg.SlaveCommand_RequestKeyStates)
        { uhkModuleState with phase := UhkModulePhase_ReceiveKeystates }
  | UhkModulePhase_ReceiveKeystates =>
      rxStep env g uhkModuleDriverId UhkModulePhase_ProcessKeystates
  | UhkModulePhase_ProcessKeystates =>
      let g1 := if env.CRC16_IsMessageValid rxMessage
        then
          let slotId := (uhkModuleDriverId + 1) % 256
          { g with
            CurrentKeyStates := store g.CurrentKeyStates slotId
              (env.BoolBitsToBytes rxMessage.data (g.CurrentKeyStates slotId)
                (keyCount cfg uhkModuleState.features)) }
        else g
      noTransfer cfg g1 uhkModuleDriverId
        { uhkModuleState with phase := UhkModulePhase_SetTestLed }
  -- Set test LED
  | UhkModulePhase_SetTestLed =>
      if uhkModuleSourceVars.isTestLedOn = uhkModuleTargetVars.isTestLedOn then
        noTransfer cfg g uhkModuleDriverId
          { uhkModuleState with phase := UhkModulePhase_SetLedPwmBrightness }
      else
        txStep env g uhkModuleDriverId
          (setTx2 g.txMessage cfg.SlaveCommand_SetTestLed
            (boolToByte uhkModuleSourceVars.isTestLedOn))
          { uhkModuleState with
            targetVars := { uhkModuleTargetVars with
              isTestLedOn := uhkModuleSourceVars.isTestLedOn }
            phase := UhkModulePhase_SetLedPwmBrightness }
  -- Set PWM brightness
  | UhkModulePhase_SetLedPwmBrightness =>
      if uhkModuleSourceVars.ledPwmBrightness = uhkModuleTargetVars.ledPwmBrightness then
        noTransfer cfg g uhkModuleDriverId
          { uhkModuleState with phase := UhkModulePhase_RequestKeyStates }
      else
        txStep env g uhkModuleDriverId
          (setTx2 g.txMessage cfg.SlaveCommand_SetLedPwmBrightness
            uhkModuleSourceVars.ledPwmBrightness)
          { uhkModuleState with
            targetVars := { uhkModuleTargetVars with
              ledPwmBrightness := uhkModuleSourceVars.ledPwmBrightness }
            phase := UhkModulePhase_RequestKeyStates }

/-- The function `UhkModuleSlaveDriver_Disconnect`. -/
def UhkModuleSlaveDriver_Disconnect (cfg : Config) (uhkModuleDriverId : Nat)
    (g : Globals) : Globals :=
  let g1 := if uhkModuleDriverId = cfg.SlaveId_LeftKeyboardHalf
    then { g with
      Slaves_isConnected := store g.Slaves_isConnected cfg.SlaveId_LeftLedDriver false }
    else g
  { g1 with
    uhkModuleStates := store g1.uhkModuleStates uhkModuleDriverId
      { g1.uhkModuleStates uhkModuleDriverId with isEnumerated := false } }

/-- A sequence of `UhkModuleSlaveDriver_Update` calls, each with its own driver id
and its own external outcome; the returned statuses are dropped. -/
def runUpdates (cfg : Config) : List (Env × Nat) → Globals → Globals
  | [], g => g
  | c :: cs, g => runUpdates cfg cs (UhkModuleSlaveDriver_Update cfg c.1 c.2 g).globals

/-- A sequence of `UhkModuleSlaveDriver_Update` calls on one session. -/
def runSession (cfg : Config) (id : Nat) (envs : List Env) (g : Globals) : Globals :=
  runUpdates cfg (envs.map (fun e => (e, id))) g

/-- One call of `UhkModuleSlaveDriver_Update` on a session followed by the writes
of its caller to the desired outputs: `UhkModuleVars` is an external, writable
global, and `w` is its contents when the next call starts. -/
def callThenWrite (cfg : Config) (id : Nat) (c : Env × (Nat → uhk_module_vars_t))
    (g : Globals) : Globals :=
  { (UhkModuleSlaveDriver_Update cfg c.1 id g).globals with UhkModuleVars := c.2 }

/-- A sequence of calls on one session, the caller rewriting the desired outputs
after each of them. -/
def runWithWrites (cfg : Config) (id : Nat) :
    List (Env × (Nat → uhk_module_vars_t)) → Globals → Globals
  | [], g => g
  | c :: cs, g => runWithWrites cfg id cs (callThenWrite cfg id c g)

/-! ## The bit unpacker -/

/-- Bit `k` of a packed bit vector: bit `k % 8` of byte `k / 8`. -/
def bitOfVector (srcBytes : Nat → Nat) (k : Nat) : Bool :=
  (srcBytes (k / 8)).testBit (k % 8)

/-- Modelled from the spec: the bit unpacker `BoolBitsToBytes` of
`bool_array_converter.h`, which the driver calls and whose definition is not part
of the source file. The specification gives it as `unpack(bits, outputArray,
count)`, the conversion of a packed bit vector into a per-key boolean array that
writes exactly `count` booleans: entry `k < count` of the destination becomes bit
`k` of the vector, entries from `count` on are not written. -/
def BoolBitsToBytes (srcBytes : Nat → Nat) (dstBytes : Nat → Bool) (count : Nat) :
    Nat → Bool :=
  fun k => if k < count then bitOfVector srcBytes k else dstBytes k

/-! ## Exchanges -/

/-- One exchange with the module as the session sees it: the external outcomes of
its request, receive and process calls, and the frame the module answers with. -/
structure Exchange where
  request : Env
  receive : Env
  process : Env
  frame : i2c_message_t

/-- The external outcomes of the three calls of an exchange, in call order. -/
def Exchange.envs (x : Exchange) : List Env := [x.request, x.receive, x.process]

/-- The exchange delivers its frame: the read of its receive call completes with
`frame` in the receive buffer, and the validator consulted by its process call
gives `frame` the verdict `valid`. -/
def Exchange.Delivers (x : Exchange) (valid : Bool) : Prop :=
  (∀ (i2cAddress : Nat) (buffer : i2c_message_t),
      (x.receive.I2cAsyncReadMessage i2cAddress buffer).2 = x.frame)
    ∧ x.process.CRC16_IsMessageValid x.frame = valid

/-! ## The phase order of the specification -/

/-- The order in which the specification lists the phases. -/
def phaseOrder : List uhk_module_phase_t :=
  [ UhkModulePhase_RequestSync, UhkModulePhase_ReceiveSync, UhkModulePhase_ProcessSync,
    UhkModulePhase_RequestProtocolVersion, UhkModulePhase_ReceiveProtocolVersion,
    UhkModulePhase_ProcessProtocolVersion,
    UhkModulePhase_RequestModuleId, UhkModulePhase_ReceiveModuleId,
    UhkModulePhase_ProcessModuleId,
    UhkModulePhase_RequestModuleFeatures, UhkModulePhase_ReceiveModuleFeatures,
    UhkModulePhase_ProcessModuleFeatures,
    UhkModulePhase_RequestKeyStates, UhkModulePhase_ReceiveKeystates,
    UhkModulePhase_ProcessKeystates,
    UhkModulePhase_SetTestLed, UhkModulePhase_SetLedPwmBrightness ]

/-- The transition function as the specification words it: the immediate
successor in `phaseOrder`, except that `ProcessSync` with a frame that is invalid
or does not carry the sync marker goes to `RequestSync`, and that
`SetLedPwmBrightness` goes to `RequestKeyStates`. -/
def specNextPhase (p : uhk_module_phase_t) (syncFrameOk : Bool) : uhk_module_phase_t :=
  if p = UhkModulePhase_ProcessSync ∧ syncFrameOk = false then UhkModulePhase_RequestSync
  else if p = UhkModulePhase_SetLedPwmBrightness then UhkModulePhase_RequestKeyStates
  else phaseOrder.getD (phaseOrder.indexOf p + 1) p

/-- The validation outcome the `ProcessSync` case computes for a session: the
checksum verdict on its receive buffer and the comparison with the sync marker. -/
def syncFrameOk (cfg : Config) (env : Env) (st : uhk_module_state_t) : Bool :=
  memcmpEq st.rxMessage.data cfg.SlaveSyncString cfg.SLAVE_SYNC_STRING_LENGTH
    && env.CRC16_IsMessageValid st.rxMessage

/-! ## Phase classes of the specification -/

/-- The bus address an operation is addressed to. -/
def BusOp.i2cAddress : BusOp → Nat
  | BusOp.write a _ => a
  | BusOp.read a => a

/-- The property a "request property" phase asks the module for, as the
specification lists them: `Sync`, `ProtocolVersion`, `ModuleId`, `Features`. -/
def requestProperty (cfg : Config) : uhk_module_phase_t → Option Nat
  | UhkModulePhase_RequestSync => some cfg.SlaveProperty_Sync
  | UhkModulePhase_RequestProtocolVersion => some cfg.SlaveProperty_ProtocolVersion
  | UhkModulePhase_RequestModuleId => some cfg.SlaveProperty_ModuleId
  | UhkModulePhase_RequestModuleFeatures => some cfg.SlaveProperty_Features
  | _ => none

/-- The receive phases of the specification. -/
def isReceivePhase : uhk_module_phase_t → Bool
  | UhkModulePhase_ReceiveSync => true
  | UhkModulePhase_ReceiveProtocolVersion => true
  | UhkModulePhase_ReceiveModuleId => true
  | UhkModulePhase_ReceiveModuleFeatures => true
  | UhkModulePhase_ReceiveKeystates => true
  | _ => false

/-- The process phases of the specification. -/
def isProcessPhase : uhk_module_phase_t → Bool
  | UhkModulePhase_ProcessSync => true
  | UhkModulePhase_ProcessProtocolVersion => true
  | UhkModulePhase_ProcessModuleId => true
  | UhkModulePhase_ProcessModuleFeatures => true
  | UhkModulePhase_ProcessKeystates => true
  | _ => false

/-- The steady-state region of the specification, in cyclic order. -/
def steadyCycle : List uhk_module_phase_t :=
  [ UhkModulePhase_RequestKeyStates, UhkModulePhase_ReceiveKeystates,
    UhkModulePhase_ProcessKeystates, UhkModulePhase_SetTestLed,
    UhkModulePhase_SetLedPwmBrightness ]

/-- Membership in the steady-state region. -/
def inSteadyState (p : uhk_module_phase_t) : Bool := decide (p ∈ steadyCycle)

/-- The resynchronisation loop of the specification, in cyclic order. -/
def syncLoop : List uhk_module_phase_t :=
  [ UhkModulePhase_RequestSync, UhkModulePhase_ReceiveSync, UhkModulePhase_ProcessSync ]

/-- A phase a session can reach from `UhkModuleSlaveDriver_Init` by calls of
`UhkModuleSlaveDriver_Update`, under some external outcomes. -/
def Reachable (cfg : Config) (id : Nat) (p : uhk_module_phase_t) : Prop :=
  ∃ (g0 : Globals) (envs : List Env),
    ((runSession cfg id envs (UhkModuleSlaveDriver_Init cfg id g0)).uhkModuleStates id).phase
      = p

/-- The module never answers with a valid sync: along the calls `envs` on the
session, started in `g`, every call made in phase `ProcessSync` sees a frame that
the validator rejects or that does not carry the sync marker. -/
def NeverSyncs (cfg : Config) (id : Nat) (envs : List Env) (g : Globals) : Prop :=
  ∀ (k : Nat) (e : Env), envs[k]? = some e →
    ((runSession cfg id (envs.take k) g).uhkModuleStates id).phase
      = UhkModulePhase_ProcessSync →
    syncFrameOk cfg e ((runSession cfg id (envs.take k) g).uhkModuleStates id) = false

/-! ## Sample data -/

/-- A sample configuration: the sync marker is the five bytes of `"SYNC"` with its
terminator, a feature record is two bytes with `keyCount` first. -/
def sampleConfig : Config :=
  { kStatus_Uhk_IdleSlave := 5000
    kStatus_Uhk_NoTransfer := 5001
    SlaveCommand_RequestProperty := 0
    SlaveCommand_RequestKeyStates := 1
    SlaveCommand_SetTestLed := 2
    SlaveCommand_SetLedPwmBrightness := 3
    SlaveProperty_Sync := 0
    SlaveProperty_ProtocolVersion := 1
    SlaveProperty_ModuleId := 2
    SlaveProperty_Features := 3
    SlaveSyncString := fun i => [83, 89, 78, 67, 0].getD i 0
    SLAVE_SYNC_STRING_LENGTH := 5
    MAX_PWM_BRIGHTNESS := 255
    I2C_ADDRESS_LEFT_KEYBOARD_HALF_FIRMWARE := 8
    I2C_ADDRESS_LEFT_KEYBOARD_HALF_BOOTLOADER := 16
    I2C_ADDRESS_LEFT_ADDON_FIRMWARE := 24
    I2C_ADDRESS_LEFT_ADDON_BOOTLOADER := 32
    I2C_ADDRESS_RIGHT_ADDON_FIRMWARE := 40
    I2C_ADDRESS_RIGHT_ADDON_BOOTLOADER := 48
    SlaveId_LeftKeyboardHalf := 0
    SlaveId_LeftLedDriver := 3
    sizeof_uhk_module_features_t := 2
    offsetof_keyCount := 0 }

/-- A message whose payload starts with the listed bytes and is zero after them. -/
def messageOf (bytes : List Nat) : i2c_message_t :=
  { length := bytes.length, crc := 0, data := fun i => bytes.getD i 0 }

/-- A session record in the given phase whose receive buffer holds `rx`, with all
other members zero. -/
def sessionIn (p : uhk_module_phase_t) (rx : i2c_message_t) : uhk_module_state_t :=
  { moduleId := 0, protocolVersion := 0, features := [], isEnumerated := false
    phase := p, targetVars := { isTestLedOn := false, ledPwmBrightness := 0 }
    rxMessage := rx, firmwareI2cAddress := 0, bootloaderI2cAddress := 0 }

/-- Globals in which every session has the desired outputs `vars` and the record
`st`, every slave is connected, and everything else is zero. -/
def globalsWith (vars : uhk_module_vars_t) (st : uhk_module_state_t) : Globals :=
  { UhkModuleVars := fun _ => vars
    uhkModuleStates := fun _ => st
    txMessage := messageOf []
    CurrentKeyStates := fun _ _ => false
    Slaves_isConnected := fun _ => true }

/-- Globals in which every session is the record `st`, with the desired outputs
off and zero. -/
def globalsOf (st : uhk_module_state_t) : Globals :=
  globalsWith { isTestLedOn := false, ledPwmBrightness := 0 } st

/-- An external outcome in which the bus returns the statuses `txStatus` and
`rxStatus`, a read delivers `frame`, the validator answers `valid`, and the
unpacker is `BoolBitsToBytes`. -/
def sampleEnv (txStatus rxStatus : status_t) (frame : i2c_message_t) (valid : Bool) :
    Env :=
  { I2cAsyncWriteMessage := fun _ _ => txStatus
    I2cAsyncReadMessage := fun _ _ => (rxStatus, frame)
    CRC16_IsMessageValid := fun _ => valid
    BoolBitsToBytes := BoolBitsToBytes }

/-- An exchange in which the bus reports success, the module answers with the
payload `bytes`, and the validator gives the verdict `valid`. -/
def sampleExchange (bytes : List Nat) (valid : Bool) : Exchange :=
  { request := sampleEnv 0 0 (messageOf bytes) valid
    receive := sampleEnv 0 0 (messageOf bytes) valid
    process := sampleEnv 0 0 (messageOf bytes) valid
    frame := messageOf bytes }

/-- An external outcome under which negotiation goes through: the bus reports
success, every read delivers the sync marker of the configuration, and the
validator accepts every frame. -/
def markerEnv (cfg : Config) : Env :=
  { I2cAsyncWriteMessage := fun _ _ => 0
    I2cAsyncReadMessage := fun _ buffer => (0, { buffer with data := cfg.SlaveSyncString })
    CRC16_IsMessageValid := fun _ => true
    BoolBitsToBytes := BoolBitsToBytes }

/-! ## Basic lemmas -/

@[simp] theorem store_same {α : Type} (a : Nat → α) (i : Nat) (v : α) :
    store a i v i = v := by
  simp [store]

theorem store_other {α : Type} (a : Nat → α) (i j : Nat) (v : α) (h : j ≠ i) :
    store a i v j = a j := by
  simp [store, h]

theorem memcmpEq_iff (a b : Nat → Nat) (n : Nat) :
    memcmpEq a b n = true ↔ ∀ i, i < n → a i = b i := by
  simp [memcmpEq, List.all_eq_true]

/-- The phase of the session after a call, as a function of the phase before the
call and of the sync validation outcome. -/
theorem update_phase (cfg : Config) (env : Env) (id : Nat) (g : Globals) :
    ((UhkModuleSlaveDriver_Update cfg env id g).globals.uhkModuleStates id).phase
      = specNextPhase (g.uhkModuleStates id).phase
          (syncFrameOk cfg env (g.uhkModuleStates id)) := by
  unfold UhkModuleSlaveDriver_Update
  cases h : (g.uhkModuleStates id).phase <;>
    simp only [h, txStep, rxStep, noTransfer, store_same]
  case UhkModulePhase_ProcessSync =>
    unfold syncFrameOk
    cases memcmpEq (g.uhkModuleStates id).rxMessage.data cfg.SlaveSyncString
        cfg.SLAVE_SYNC_STRING_LENGTH <;>
      cases env.CRC16_IsMessageValid (g.uhkModuleStates id).rxMessage <;> rfl
  case UhkModulePhase_SetTestLed => split <;> simp only [store_same] <;> rfl
  case UhkModulePhase_SetLedPwmBrightness => split <;> simp only [store_same] <;> rfl
  all_goals rfl

theorem memcpyBytes_length (src : Nat → Nat) (n : Nat) :
    (memcpyBytes src n).length = n := by
  simp [memcpyBytes]

theorem memcpyBytes_getD (src : Nat → Nat) (n i : Nat) (h : i < n) :
    (memcpyBytes src n).getD i 0 = src i := by
  simp [memcpyBytes, List.getD_eq_getElem?_getD, List.getElem?_map, List.getElem?_range h]

/-- A call on session `id` leaves the record of every other session alone. -/
theorem update_other_session (cfg : Config) (env : Env) (id j : Nat) (g : Globals)
    (hj : j ≠ id) :
    (UhkModuleSlaveDriver_Update cfg env id g).globals.uhkModuleStates j
      = g.uhkModuleStates j := by
  unfold UhkModuleSlaveDriver_Update
  cases h : (g.uhkModuleStates id).phase <;>
    simp only [h, txStep, rxStep, noTransfer]
  case UhkModulePhase_ProcessKeystates => split <;> simp [store_other, hj]
  case UhkModulePhase_SetTestLed => split <;> simp [store_other, hj]
  case UhkModulePhase_SetLedPwmBrightness => split <;> simp [store_other, hj]
  all_goals simp [store_other, hj]

/-- The flag `isEnumerated` of the session after a call: set by a
`ProcessModuleFeatures` step whose frame the validator accepts, otherwise kept. -/
theorem update_isEnumerated (cfg : Config) (env : Env) (id : Nat) (g : Globals) :
    ((UhkModuleSlaveDriver_Update cfg env id g).globals.uhkModuleStates id).isEnumerated
      = if (g.uhkModuleStates id).phase = UhkModulePhase_ProcessModuleFeatures
            ∧ env.CRC16_IsMessageValid (g.uhkModuleStates id).rxMessage = true
        then true else (g.uhkModuleStates id).isEnumerated := by
  unfold UhkModuleSlaveDriver_Update
  cases h : (g.uhkModuleStates id).phase <;>
    simp only [h, txStep, rxStep, noTransfer, store_same]
  all_goals split_ifs <;> simp_all

/-- Along a sequence of calls, a session whose `isEnumerated` goes from false to
true went through a `ProcessModuleFeatures` step of its own with an accepted
frame. -/
theorem runUpdates_isEnumerated (cfg : Config) (id : Nat) :
    ∀ (calls : List (Env × Nat)) (g : Globals),
      (g.uhkModuleStates id).isEnumerated = false →
      ((runUpdates cfg calls g).uhkModuleStates id).isEnumerated = true →
      ∃ (k : Nat) (e : Env), calls[k]? = some (e, id)
        ∧ ((runUpdates cfg (calls.take k) g).uhkModuleStates id).phase
            = UhkModulePhase_ProcessModuleFeatures
        ∧ e.CRC16_IsMessageValid
            ((runUpdates cfg (calls.take k) g).uhkModuleStates id).rxMessage = true := by
  intro calls
  induction calls with
  | nil =>
    intro g h0 h1
    simp [runUpdates, h0] at h1
  | cons c cs ih =>
    intro g h0 h1
    by_cases hstep :
        ((UhkModuleSlaveDriver_Update cfg c.1 c.2 g).globals.uhkModuleStates id).isEnumerated
          = true
    · refine ⟨0, c.1, ?_⟩
      by_cases hid : id = c.2
      · subst hid
        rw [update_isEnumerated, h0] at hstep
        split at hstep
        · rename_i hpv
          exact ⟨by simp, by simpa [runUpdates] using hpv.1, by simpa [runUpdates] using hpv.2⟩
        · simp at hstep
      · rw [update_other_session cfg c.1 c.2 id g hid, h0] at hstep
        simp at hstep
    · have hfalse :
          ((UhkModuleSlaveDriver_Update cfg c.1 c.2 g).globals.uhkModuleStates id).isEnumerated
            = false := by
        simpa using hstep
      obtain ⟨k, e, hk, hp, hv⟩ := ih _ hfalse (by simpa [runUpdates] using h1)
      exact ⟨k + 1, e, by simpa using hk, by simpa [runUpdates] using hp,
        by simpa [runUpdates] using hv⟩

/-- A call never writes the desired outputs. -/
theorem update_vars (cfg : Config) (env : Env) (id : Nat) (g : Globals) :
    (UhkModuleSlaveDriver_Update cfg env id g).globals.UhkModuleVars = g.UhkModuleVars := by
  unfold UhkModuleSlaveDriver_Update
  cases h : (g.uhkModuleStates id).phase <;>
    simp only [h, txStep, rxStep, noTransfer]
  all_goals split_ifs <;> rfl

/-- The last applied outputs of the session after a call: each member is the
desired one after the output phase of that member, and is kept by every other
phase. -/
theorem update_targetVars (cfg : Config) (env : Env) (id : Nat) (g : Globals) :
    ((UhkModuleSlaveDriver_Update cfg env id g).globals.uhkModuleStates id).targetVars
      = { isTestLedOn :=
            if (g.uhkModuleStates id).phase = UhkModulePhase_SetTestLed
            then (g.UhkModuleVars id).isTestLedOn
            else (g.uhkModuleStates id).targetVars.isTestLedOn
          ledPwmBrightness :=
            if (g.uhkModuleStates id).phase = UhkModulePhase_SetLedPwmBrightness
            then (g.UhkModuleVars id).ledPwmBrightness
            else (g.uhkModuleStates id).targetVars.ledPwmBrightness } := by
  unfold UhkModuleSlaveDriver_Update
  cases h : (g.uhkModuleStates id).phase <;>
    simp only [h, txStep, rxStep, noTransfer, store_same]
  all_goals split_ifs <;> simp_all

/-- An output phase whose desired value equals the last applied one issues no bus
operation and returns `kStatus_Uhk_NoTransfer`. -/
theorem update_output_idle (cfg : Config) (env : Env) (id : Nat) (g : Globals)
    (h : ((g.uhkModuleStates id).phase = UhkModulePhase_SetTestLed
          ∧ (g.UhkModuleVars id).isTestLedOn
              = (g.uhkModuleStates id).targetVars.isTestLedOn)
        ∨ ((g.uhkModuleStates id).phase = UhkModulePhase_SetLedPwmBrightness
          ∧ (g.UhkModuleVars id).ledPwmBrightness
              = (g.uhkModuleStates id).targetVars.ledPwmBrightness)) :
    (UhkModuleSlaveDriver_Update cfg env id g).ops = []
      ∧ (UhkModuleSlaveDriver_Update cfg env id g).status = cfg.kStatus_Uhk_NoTransfer := by
  rcases h with ⟨hp, hd⟩ | ⟨hp, hd⟩ <;>
    simp [UhkModuleSlaveDriver_Update, hp, hd, noTransfer]

/-- The phase after a call followed by caller writes. -/
theorem callThenWrite_phase (cfg : Config) (id : Nat)
    (c : Env × (Nat → uhk_module_vars_t)) (g : Globals) :
    ((callThenWrite cfg id c g).uhkModuleStates id).phase
      = specNextPhase (g.uhkModuleStates id).phase
          (syncFrameOk cfg c.1 (g.uhkModuleStates id)) :=
  update_phase cfg c.1 id g

/-- The last applied outputs after a call followed by caller writes. -/
theorem callThenWrite_targetVars (cfg : Config) (id : Nat)
    (c : Env × (Nat → uhk_module_vars_t)) (g : Globals) :
    ((callThenWrite cfg id c g).uhkModuleStates id).targetVars
      = { isTestLedOn :=
            if (g.uhkModuleStates id).phase = UhkModulePhase_SetTestLed
            then (g.UhkModuleVars id).isTestLedOn
            else (g.uhkModuleStates id).targetVars.isTestLedOn
          ledPwmBrightness :=
            if (g.uhkModuleStates id).phase = UhkModulePhase_SetLedPwmBrightness
            then (g.UhkModuleVars id).ledPwmBrightness
            else (g.uhkModuleStates id).targetVars.ledPwmBrightness } :=
  update_targetVars cfg c.1 id g

/-- Outside `ProcessSync` the successor of a phase does not depend on the
validation outcome. -/
theorem specNextPhase_const (p : uhk_module_phase_t) (a b : Bool)
    (hp : p ≠ UhkModulePhase_ProcessSync) : specNextPhase p a = specNextPhase p b := by
  cases p <;> cases a <;> cases b <;> first | rfl | exact absurd rfl hp

/-- Five calls take a session from `SetTestLed` back to `SetTestLed`, and from
`SetLedPwmBrightness` back to `SetLedPwmBrightness`, and the last applied value of
the output of that phase is then the value that was desired at the first call. -/
theorem runWithWrites_cycle (cfg : Config) (id : Nat)
    (c1 c2 c3 c4 c5 : Env × (Nat → uhk_module_vars_t)) (g : Globals) :
    ((g.uhkModuleStates id).phase = UhkModulePhase_SetTestLed →
      ((runWithWrites cfg id [c1, c2, c3, c4, c5] g).uhkModuleStates id).phase
          = UhkModulePhase_SetTestLed
      ∧ ((runWithWrites cfg id [c1, c2, c3, c4, c5] g).uhkModuleStates
            id).targetVars.isTestLedOn = (g.UhkModuleVars id).isTestLedOn)
    ∧ ((g.uhkModuleStates id).phase = UhkModulePhase_SetLedPwmBrightness →
      ((runWithWrites cfg id [c1, c2, c3, c4, c5] g).uhkModuleStates id).phase
          = UhkModulePhase_SetLedPwmBrightness
      ∧ ((runWithWrites cfg id [c1, c2, c3, c4, c5] g).uhkModuleStates
            id).targetVars.ledPwmBrightness = (g.UhkModuleVars id).ledPwmBrightness) := by
  constructor <;> intro hp
  · have h1 := callThenWrite_phase cfg id c1 g
    have t1 := callThenWrite_targetVars cfg id c1 g
    rw [hp, specNextPhase_const _ _ true (by decide)] at h1
    rw [hp] at t1
    have h2 := callThenWrite_phase cfg id c2 (callThenWrite cfg id c1 g)
    have t2 := callThenWrite_targetVars cfg id c2 (callThenWrite cfg id c1 g)
    rw [h1, specNextPhase_const _ _ true (by decide)] at h2
    rw [h1, t1] at t2
    have h3 := callThenWrite_phase cfg id c3 (callThenWrite cfg id c2 (callThenWrite cfg id c1 g))
    have t3 := callThenWrite_targetVars cfg id c3
      (callThenWrite cfg id c2 (callThenWrite cfg id c1 g))
    rw [h2, specNextPhase_const _ _ true (by decide)] at h3
    rw [h2, t2] at t3
    have h4 := callThenWrite_phase cfg id c4
      (callThenWrite cfg id c3 (callThenWrite cfg id c2 (callThenWrite cfg id c1 g)))
    have t4 := callThenWrite_targetVars cfg id c4
      (callThenWrite cfg id c3 (callThenWrite cfg id c2 (callThenWrite cfg id c1 g)))
    rw [h3, specNextPhase_const _ _ true (by decide)] at h4
    rw [h3, t3] at t4
    have h5 := callThenWrite_phase cfg id c5 (callThenWrite cfg id c4
      (callThenWrite cfg id c3 (callThenWrite cfg id c2 (callThenWrite cfg id c1 g))))
    have t5 := callThenWrite_targetVars cfg id c5 (callThenWrite cfg id c4
      (callThenWrite cfg id c3 (callThenWrite cfg id c2 (callThenWrite cfg id c1 g))))
    rw [h4, specNextPhase_const _ _ true (by decide)] at h5
    rw [h4, t4] at t5
    simp only [runWithWrites]
    exact ⟨h5, by rw [t5]; rfl⟩
  · have h1 := callThenWrite_phase cfg id c1 g
    have t1 := callThenWrite_targetVars cfg id c1 g
    rw [hp, specNextPhase_const _ _ true (by decide)] at h1
    rw [hp] at t1
    have h2 := callThenWrite_phase cfg id c2 (callThenWrite cfg id c1 g)
    have t2 := callThenWrite_targetVars cfg id c2 (callThenWrite cfg id c1 g)
    rw [h1, specNextPhase_const _ _ true (by decide)] at h2
    rw [h1, t1] at t2
    have h3 := callThenWrite_phase cfg id c3 (callThenWrite cfg id c2 (callThenWrite cfg id c1 g))
    have t3 := callThenWrite_targetVars cfg id c3
      (callThenWrite cfg id c2 (callThenWrite cfg id c1 g))
    rw [h2, specNextPhase_const _ _ true (by decide)] at h3
    rw [h2, t2] at t3
    have h4 := callThenWrite_phase cfg id c4
      (callThenWrite cfg id c3 (callThenWrite cfg id c2 (callThenWrite cfg id c1 g)))
    have t4 := callThenWrite_targetVars cfg id c4
      (callThenWrite cfg id c3 (callThenWrite cfg id c2 (callThenWrite cfg id c1 g)))
    rw [h3, specNextPhase_const _ _ true (by decide)] at h4
    rw [h3, t3] at t4
    have h5 := callThenWrite_phase cfg id c5 (callThenWrite cfg id c4
      (callThenWrite cfg id c3 (callThenWrite cfg id c2 (callThenWrite cfg id c1 g))))
    have t5 := callThenWrite_targetVars cfg id c5 (callThenWrite cfg id c4
      (callThenWrite cfg id c3 (callThenWrite cfg id c2 (callThenWrite cfg id c1 g))))
    rw [h4, specNextPhase_const _ _ true (by decide)] at h5
    rw [h4, t4] at t5
    simp only [runWithWrites]
    exact ⟨h5, by rw [t5]; rfl⟩

/-- What a call hands to the bus layer and what it returns: nothing and
`kStatus_Uhk_NoTransfer`, or one write of the transmit buffer to the firmware
address of the session and the status of that write, or one read from that address
and the status of that read. -/
theorem update_ops_status (cfg : Config) (env : Env) (id : Nat) (g : Globals) :
    ((UhkModuleSlaveDriver_Update cfg env id g).ops = []
        ∧ (UhkModuleSlaveDriver_Update cfg env id g).status = cfg.kStatus_Uhk_NoTransfer)
    ∨ (∃ m, (UhkModuleSlaveDriver_Update cfg env id g).ops
          = [BusOp.write (g.uhkModuleStates id).firmwareI2cAddress m]
        ∧ (UhkModuleSlaveDriver_Update cfg env id g).status
          = env.I2cAsyncWriteMessage (g.uhkModuleStates id).firmwareI2cAddress m)
    ∨ ((UhkModuleSlaveDriver_Update cfg env id g).ops
          = [BusOp.read (g.uhkModuleStates id).firmwareI2cAddress]
        ∧ (UhkModuleSlaveDriver_Update cfg env id g).status
          = (env.I2cAsyncReadMessage (g.uhkModuleStates id).firmwareI2cAddress
              (g.uhkModuleStates id).rxMessage).1) := by
  unfold UhkModuleSlaveDriver_Update
  cases h : (g.uhkModuleStates id).phase <;>
    simp only [h, txStep, rxStep, noTransfer]
  all_goals (try split_ifs) <;> simp

/-- The bus operations of a call, phase by phase. -/
theorem update_ops (cfg : Config) (env : Env) (id : Nat) (g : Globals) :
    (∀ P, requestProperty cfg (g.uhkModuleStates id).phase = some P →
      ∃ m, (UhkModuleSlaveDriver_Update cfg env id g).ops
          = [BusOp.write (g.uhkModuleStates id).firmwareI2cAddress m]
        ∧ m.length = 2 ∧ m.data 0 = cfg.SlaveCommand_RequestProperty ∧ m.data 1 = P)
    ∧ ((g.uhkModuleStates id).phase = UhkModulePhase_RequestKeyStates →
      ∃ m, (UhkModuleSlaveDriver_Update cfg env id g).ops
          = [BusOp.write (g.uhkModuleStates id).firmwareI2cAddress m]
        ∧ m.length = 1 ∧ m.data 0 = cfg.SlaveCommand_RequestKeyStates)
    ∧ (isReceivePhase (g.uhkModuleStates id).phase = true →
      (UhkModuleSlaveDriver_Update cfg env id g).ops
          = [BusOp.read (g.uhkModuleStates id).firmwareI2cAddress]
        ∧ ((UhkModuleSlaveDriver_Update cfg env id g).globals.uhkModuleStates id).rxMessage
          = (env.I2cAsyncReadMessage (g.uhkModuleStates id).firmwareI2cAddress
              (g.uhkModuleStates id).rxMessage).2)
    ∧ (isProcessPhase (g.uhkModuleStates id).phase = true →
      (UhkModuleSlaveDriver_Update cfg env id g).ops = []) := by
  unfold UhkModuleSlaveDriver_Update
  cases h : (g.uhkModuleStates id).phase <;>
    simp [h, txStep, rxStep, noTransfer, requestProperty, isReceivePhase, isProcessPhase,
      setTx2, setTx1, store]

theorem memcmpEq_self (a : Nat → Nat) (n : Nat) : memcmpEq a a n = true :=
  (memcmpEq_iff a a n).mpr (fun _ _ => rfl)

/-- After `k` calls under `markerEnv`, an initialised session is in the phase
number `k` of `phaseOrder`. -/
theorem runSession_markerEnv_phase (cfg : Config) (id : Nat) (g0 : Globals) (k : Nat)
    (hk : k < 17) :
    ((runSession cfg id (List.replicate k (markerEnv cfg))
        (UhkModuleSlaveDriver_Init cfg id g0)).uhkModuleStates id).phase
      = phaseOrder.getD k UhkModulePhase_RequestSync := by
  interval_cases k <;>
    simp [runSession, runUpdates, UhkModuleSlaveDriver_Update, UhkModuleSlaveDriver_Init,
      txStep, rxStep, noTransfer, markerEnv, memcmpEq_self, phaseOrder]

/-- Every phase is reached from `UhkModuleSlaveDriver_Init` by calls of
`UhkModuleSlaveDriver_Update`. -/
theorem reachable_all (cfg : Config) (id : Nat) (p : uhk_module_phase_t) :
    Reachable cfg id p := by
  have h : ∃ k, k < 17 ∧ phaseOrder.getD k UhkModulePhase_RequestSync = p := by
    cases p
    · exact ⟨0, by decide, rfl⟩
    · exact ⟨1, by decide, rfl⟩
    · exact ⟨2, by decide, rfl⟩
    · exact ⟨3, by decide, rfl⟩
    · exact ⟨4, by decide, rfl⟩
    · exact ⟨5, by decide, rfl⟩
    · exact ⟨6, by decide, rfl⟩
    · exact ⟨7, by decide, rfl⟩
    · exact ⟨8, by decide, rfl⟩
    · exact ⟨9, by decide, rfl⟩
    · exact ⟨10, by decide, rfl⟩
    · exact ⟨11, by decide, rfl⟩
    · exact ⟨12, by decide, rfl⟩
    · exact ⟨13, by decide, rfl⟩
    · exact ⟨14, by decide, rfl⟩
    · exact ⟨15, by decide, rfl⟩
    · exact ⟨16, by decide, rfl⟩
  obtain ⟨k, hk, hp⟩ := h
  exact ⟨globalsOf (sessionIn UhkModulePhase_RequestSync (messageOf [])),
    List.replicate k (markerEnv cfg), by rw [runSession_markerEnv_phase cfg id _ k hk, hp]⟩

theorem phaseOrder_complete (p : uhk_module_phase_t) : p ∈ phaseOrder := by
  cases p <;> simp [phaseOrder]

theorem runSession_cons (cfg : Config) (id : Nat) (e : Env) (es : List Env) (g : Globals) :
    runSession cfg id (e :: es) g
      = runSession cfg id es (UhkModuleSlaveDriver_Update cfg e id g).globals := by
  simp [runSession, runUpdates]

/-- A call made in the resynchronisation loop writes neither the identity members
nor the last applied outputs nor the key state table. -/
theorem update_in_syncLoop (cfg : Config) (env : Env) (id : Nat) (g : Globals)
    (h : (g.uhkModuleStates id).phase ∈ syncLoop) :
    ((UhkModuleSlaveDriver_Update cfg env id g).globals.uhkModuleStates id).protocolVersion
        = (g.uhkModuleStates id).protocolVersion
    ∧ ((UhkModuleSlaveDriver_Update cfg env id g).globals.uhkModuleStates id).moduleId
        = (g.uhkModuleStates id).moduleId
    ∧ ((UhkModuleSlaveDriver_Update cfg env id g).globals.uhkModuleStates id).features
        = (g.uhkModuleStates id).features
    ∧ ((UhkModuleSlaveDriver_Update cfg env id g).globals.uhkModuleStates id).isEnumerated
        = (g.uhkModuleStates id).isEnumerated
    ∧ ((UhkModuleSlaveDriver_Update cfg env id g).globals.uhkModuleStates id).targetVars
        = (g.uhkModuleStates id).targetVars
    ∧ (UhkModuleSlaveDriver_Update cfg env id g).globals.CurrentKeyStates
        = g.CurrentKeyStates := by
  simp only [syncLoop, List.mem_cons, List.mem_singleton, List.mem_nil_iff, or_false] at h
  rcases h with hp | hp | hp <;>
    simp [UhkModuleSlaveDriver_Update, hp, txStep, rxStep, noTransfer]

/-- A session that starts at position `r` of the resynchronisation loop and never
sees a valid sync is at position `(r + n) % 3` of the loop after `n` calls, with the
identity members, the last applied outputs and the key state table untouched. -/
theorem runSession_syncLoop (cfg : Config) (id : Nat) :
    ∀ (envs : List Env) (g : Globals) (r : Nat), r < 3 →
      (g.uhkModuleStates id).phase = syncLoop.getD r UhkModulePhase_RequestSync →
      NeverSyncs cfg id envs g →
      ((runSession cfg id envs g).uhkModuleStates id).phase
          = syncLoop.getD ((r + envs.length) % 3) UhkModulePhase_RequestSync
      ∧ ((runSession cfg id envs g).uhkModuleStates id).protocolVersion
          = (g.uhkModuleStates id).protocolVersion
      ∧ ((runSession cfg id envs g).uhkModuleStates id).moduleId
          = (g.uhkModuleStates id).moduleId
      ∧ ((runSession cfg id envs g).uhkModuleStates id).features
          = (g.uhkModuleStates id).features
      ∧ ((runSession cfg id envs g).uhkModuleStates id).isEnumerated
          = (g.uhkModuleStates id).isEnumerated
      ∧ ((runSession cfg id envs g).uhkModuleStates id).targetVars
          = (g.uhkModuleStates id).targetVars
      ∧ (runSession cfg id envs g).CurrentKeyStates = g.CurrentKeyStates := by
  intro envs
  induction envs with
  | nil =>
    intro g r hr hp _
    have hmod : (r + ([] : List Env).length) % 3 = r := by
      simpa using Nat.mod_eq_of_lt hr
    rw [hmod]
    exact ⟨hp, rfl, rfl, rfl, rfl, rfl, rfl⟩
  | cons e es ih =>
    intro g r hr hp hnever
    have hmem : (g.uhkModuleStates id).phase ∈ syncLoop := by
      rw [hp]
      interval_cases r <;> simp [syncLoop]
    obtain ⟨k1, k2, k3, k4, k5, k6⟩ := update_in_syncLoop cfg e id g hmem
    have hnext :
        ((UhkModuleSlaveDriver_Update cfg e id g).globals.uhkModuleStates id).phase
          = syncLoop.getD ((r + 1) % 3) UhkModulePhase_RequestSync := by
      rw [update_phase, hp]
      interval_cases r
      · rfl
      · rfl
      · have h0 := hnever 0 e (by simp) (by simpa [runSession, runUpdates] using hp)
        simp only [List.take_zero, runSession, List.map_nil, runUpdates] at h0
        rw [h0]
        rfl
    have hnever1 : NeverSyncs cfg id es (UhkModuleSlaveDriver_Update cfg e id g).globals := by
      intro k e1 hk hph
      have := hnever (k + 1) e1 (by simpa using hk)
      simp only [List.take_succ_cons, runSession_cons] at this
      exact this hph
    obtain ⟨j0, j1, j2, j3, j4, j5, j6⟩ :=
      ih (UhkModuleSlaveDriver_Update cfg e id g).globals ((r + 1) % 3)
        (Nat.mod_lt _ (by decide)) hnext hnever1
    rw [runSession_cons]
    have hidx : ((r + 1) % 3 + es.length) % 3 = (r + (e :: es).length) % 3 := by
      simp only [List.length_cons]
      omega
    rw [hidx] at j0
    exact ⟨j0, j1.trans k1, j2.trans k2, j3.trans k3, j4.trans k4, j5.trans k5, j6.trans k6⟩

/-- A call made in the steady-state region stays in the region and writes no
identity member. -/
theorem update_in_steadyState (cfg : Config) (env : Env) (id : Nat) (g : Globals)
    (h : inSteadyState (g.uhkModuleStates id).phase = true) :
    inSteadyState
        ((UhkModuleSlaveDriver_Update cfg env id g).globals.uhkModuleStates id).phase = true
    ∧ ((UhkModuleSlaveDriver_Update cfg env id g).globals.uhkModuleStates id).protocolVersion
        = (g.uhkModuleStates id).protocolVersion
    ∧ ((UhkModuleSlaveDriver_Update cfg env id g).globals.uhkModuleStates id).moduleId
        = (g.uhkModuleStates id).moduleId
    ∧ ((UhkModuleSlaveDriver_Update cfg env id g).globals.uhkModuleStates id).features
        = (g.uhkModuleStates id).features
    ∧ ((UhkModuleSlaveDriver_Update cfg env id g).globals.uhkModuleStates id).isEnumerated
        = (g.uhkModuleStates id).isEnumerated := by
  simp only [inSteadyState, steadyCycle, List.mem_cons, List.mem_singleton,
    List.mem_nil_iff, or_false, decide_eq_true_eq] at h
  rcases h with hp | hp | hp | hp | hp <;>
    simp only [UhkModuleSlaveDriver_Update, hp, txStep, rxStep, noTransfer] <;>
    (try split_ifs) <;> simp [inSteadyState, steadyCycle]

/-- Along any sequence of calls, on any sessions, a session that is in the
steady-state region stays there and keeps its identity members. -/
theorem runUpdates_steadyState (cfg : Config) (id : Nat) :
    ∀ (calls : List (Env × Nat)) (g : Globals),
      inSteadyState (g.uhkModuleStates id).phase = true →
      inSteadyState ((runUpdates cfg calls g).uhkModuleStates id).phase = true
      ∧ ((runUpdates cfg calls g).uhkModuleStates id).protocolVersion
          = (g.uhkModuleStates id).protocolVersion
      ∧ ((runUpdates cfg calls g).uhkModuleStates id).moduleId
          = (g.uhkModuleStates id).moduleId
      ∧ ((runUpdates cfg calls g).uhkModuleStates id).features
          = (g.uhkModuleStates id).features
      ∧ ((runUpdates cfg calls g).uhkModuleStates id).isEnumerated
          = (g.uhkModuleStates id).isEnumerated := by
  intro calls
  induction calls with
  | nil =>
    intro g h
    exact ⟨h, rfl, rfl, rfl, rfl⟩
  | cons c cs ih =>
    intro g h
    simp only [runUpdates]
    by_cases hid : id = c.2
    · subst hid
      obtain ⟨k0, k1, k2, k3, k4⟩ := update_in_steadyState cfg c.1 c.2 g h
      obtain ⟨j0, j1, j2, j3, j4⟩ := ih _ k0
      exact ⟨j0, j1.trans k1, j2.trans k2, j3.trans k3, j4.trans k4⟩
    · have hsame := update_other_session cfg c.1 c.2 id g hid
      obtain ⟨j0, j1, j2, j3, j4⟩ := ih (UhkModuleSlaveDriver_Update cfg c.1 c.2 g).globals
        (by rw [hsame]; exact h)
      rw [hsame] at j1 j2 j3 j4
      exact ⟨j0, j1, j2, j3, j4⟩

/-- A session that starts at position `r` of the steady-state cycle is at position
`(r + n) % 5` of the cycle after `n` calls. -/
theorem runSession_steadyCycle (cfg : Config) (id : Nat) :
    ∀ (envs : List Env) (g : Globals) (r : Nat), r < 5 →
      (g.uhkModuleStates id).phase = steadyCycle.getD r UhkModulePhase_RequestKeyStates →
      ((runSession cfg id envs g).uhkModuleStates id).phase
        = steadyCycle.getD ((r + envs.length) % 5) UhkModulePhase_RequestKeyStates := by
  intro envs
  induction envs with
  | nil =>
    intro g r hr hp
    have hmod : (r + ([] : List Env).length) % 5 = r := by
      simpa using Nat.mod_eq_of_lt hr
    rw [hmod]
    exact hp
  | cons e es ih =>
    intro g r hr hp
    have hnext :
        ((UhkModuleSlaveDriver_Update cfg e id g).globals.uhkModuleStates id).phase
          = steadyCycle.getD ((r + 1) % 5) UhkModulePhase_RequestKeyStates := by
      rw [update_phase, hp]
      interval_cases r <;> rfl
    have h := ih (UhkModuleSlaveDriver_Update cfg e id g).globals ((r + 1) % 5)
      (Nat.mod_lt _ (by decide)) hnext
    rw [runSession_cons, h]
    congr 1
    simp only [List.length_cons]
    omega

/-- A call on session `id` writes no key state slot but `(id + 1) % 256`. -/
theorem update_keyStates_other (cfg : Config) (env : Env) (id slot : Nat) (g : Globals)
    (hslot : slot ≠ (id + 1) % 256) :
    (UhkModuleSlaveDriver_Update cfg env id g).globals.CurrentKeyStates slot
      = g.CurrentKeyStates slot := by
  unfold UhkModuleSlaveDriver_Update
  cases h : (g.uhkModuleStates id).phase <;>
    simp only [h, txStep, rxStep, noTransfer]
  all_goals (try split_ifs) <;> simp [store_other, hslot]

/-- A call writes no connectivity flag. -/
theorem update_slaves (cfg : Config) (env : Env) (id : Nat) (g : Globals) :
    (UhkModuleSlaveDriver_Update cfg env id g).globals.Slaves_isConnected
      = g.Slaves_isConnected := by
  unfold UhkModuleSlaveDriver_Update
  cases h : (g.uhkModuleStates id).phase <;>
    simp only [h, txStep, rxStep, noTransfer]
  all_goals (try split_ifs) <;> rfl

/-- A `ProcessKeystates` call with an accepted frame writes the result of the
unpacker into slot `(id + 1) % 256`. -/
theorem update_processKeystates_valid (cfg : Config) (env : Env) (id : Nat) (g : Globals)
    (hp : (g.uhkModuleStates id).phase = UhkModulePhase_ProcessKeystates)
    (hv : env.CRC16_IsMessageValid (g.uhkModuleStates id).rxMessage = true) :
    (UhkModuleSlaveDriver_Update cfg env id g).globals.CurrentKeyStates ((id + 1) % 256)
      = env.BoolBitsToBytes (g.uhkModuleStates id).rxMessage.data
          (g.CurrentKeyStates ((id + 1) % 256))
          (keyCount cfg (g.uhkModuleStates id).features) := by
  simp [UhkModuleSlaveDriver_Update, hp, hv, noTransfer]

/-- The record of the session after `UhkModuleSlaveDriver_Disconnect`. -/
theorem disconnect_session (cfg : Config) (id : Nat) (g : Globals) :
    (UhkModuleSlaveDriver_Disconnect cfg id g).uhkModuleStates id
      = { g.uhkModuleStates id with isEnumerated := false } := by
  unfold UhkModuleSlaveDriver_Disconnect
  split <;> simp

/-! ## Phase transitions -/

/-- C1: one call of `UhkModuleSlaveDriver_Update` moves the phase of the session to
the immediate successor in the order of the specification, except that
`ProcessSync` with an invalid or mismatched frame goes to `RequestSync` and
`SetLedPwmBrightness` goes to `RequestKeyStates`; the next phase is a function of
the current phase and the validation outcome alone, whatever the bus statuses,
the frame contents, the desired and the last applied outputs, the driver id and
the rest of the globals are. -/
theorem C1_phase_transition (cfg : Config) (env : Env) (id : Nat) (g : Globals) :
    ((UhkModuleSlaveDriver_Update cfg env id g).globals.uhkModuleStates id).phase
        = specNextPhase (g.uhkModuleStates id).phase
            (syncFrameOk cfg env (g.uhkModuleStates id))
    ∧ ((g.uhkModuleStates id).phase = UhkModulePhase_ProcessSync →
        syncFrameOk cfg env (g.uhkModuleStates id) = false →
        ((UhkModuleSlaveDriver_Update cfg env id g).globals.uhkModuleStates id).phase
          = UhkModulePhase_RequestSync)
    ∧ ((g.uhkModuleStates id).phase = UhkModulePhase_SetLedPwmBrightness →
        ((UhkModuleSlaveDriver_Update cfg env id g).globals.uhkModuleStates id).phase
          = UhkModulePhase_RequestKeyStates)
    ∧ (¬ ((g.uhkModuleStates id).phase = UhkModulePhase_ProcessSync
            ∧ syncFrameOk cfg env (g.uhkModuleStates id) = false) →
        (g.uhkModuleStates id).phase ≠ UhkModulePhase_SetLedPwmBrightness →
        phaseOrder.indexOf
            ((UhkModuleSlaveDriver_Update cfg env id g).globals.uhkModuleStates id).phase
          = phaseOrder.indexOf (g.uhkModuleStates id).phase + 1)
    ∧ (∀ (cfg2 : Config) (env2 : Env) (id2 : Nat) (g2 : Globals),
        (g2.uhkModuleStates id2).phase = (g.uhkModuleStates id).phase →
        syncFrameOk cfg2 env2 (g2.uhkModuleStates id2)
          = syncFrameOk cfg env (g.uhkModuleStates id) →
        ((UhkModuleSlaveDriver_Update cfg2 env2 id2 g2).globals.uhkModuleStates id2).phase
          = ((UhkModuleSlaveDriver_Update cfg env id g).globals.uhkModuleStates id).phase) := by
  refine ⟨update_phase cfg env id g, ?_, ?_, ?_, ?_⟩
  · intro hp hok
    rw [update_phase, hp, hok]
    rfl
  · intro hp
    rw [update_phase, hp]
    cases syncFrameOk cfg env (g.uhkModuleStates id) <;> rfl
  · intro h1 h2
    rw [update_phase]
    revert h1 h2
    cases (g.uhkModuleStates id).phase <;>
      cases syncFrameOk cfg env (g.uhkModuleStates id) <;> decide
  · intro cfg2 env2 id2 g2 hp hok
    rw [update_phase, update_phase, hp, hok]

/-- C2: in phase `ProcessSync` the session advances to `RequestProtocolVersion`
exactly when the validator accepts the received frame and its first
`SLAVE_SYNC_STRING_LENGTH` payload bytes equal the sync marker byte for byte, and
returns to `RequestSync` in every other case; either way no bus operation is
issued, the status is `kStatus_Uhk_NoTransfer`, and `protocolVersion`, `moduleId`,
`features` and `isEnumerated` keep their values. -/
theorem C2_process_sync (cfg : Config) (env : Env) (id : Nat) (g : Globals)
    (hphase : (g.uhkModuleStates id).phase = UhkModulePhase_ProcessSync) :
    (((UhkModuleSlaveDriver_Update cfg env id g).globals.uhkModuleStates id).phase
        = UhkModulePhase_RequestProtocolVersion
      ↔ (env.CRC16_IsMessageValid (g.uhkModuleStates id).rxMessage = true
          ∧ ∀ i, i < cfg.SLAVE_SYNC_STRING_LENGTH →
              (g.uhkModuleStates id).rxMessage.data i = cfg.SlaveSyncString i))
    ∧ (¬ (env.CRC16_IsMessageValid (g.uhkModuleStates id).rxMessage = true
          ∧ ∀ i, i < cfg.SLAVE_SYNC_STRING_LENGTH →
              (g.uhkModuleStates id).rxMessage.data i = cfg.SlaveSyncString i) →
        ((UhkModuleSlaveDriver_Update cfg env id g).globals.uhkModuleStates id).phase
          = UhkModulePhase_RequestSync)
    ∧ (UhkModuleSlaveDriver_Update cfg env id g).ops = []
    ∧ (UhkModuleSlaveDriver_Update cfg env id g).status = cfg.kStatus_Uhk_NoTransfer
    ∧ ((UhkModuleSlaveDriver_Update cfg env id g).globals.uhkModuleStates id).protocolVersion
        = (g.uhkModuleStates id).protocolVersion
    ∧ ((UhkModuleSlaveDriver_Update cfg env id g).globals.uhkModuleStates id).moduleId
        = (g.uhkModuleStates id).moduleId
    ∧ ((UhkModuleSlaveDriver_Update cfg env id g).globals.uhkModuleStates id).features
        = (g.uhkModuleStates id).features
    ∧ ((UhkModuleSlaveDriver_Update cfg env id g).globals.uhkModuleStates id).isEnumerated
        = (g.uhkModuleStates id).isEnumerated := by
  simp only [UhkModuleSlaveDriver_Update, hphase, noTransfer, store_same, ← memcmpEq_iff]
  cases memcmpEq (g.uhkModuleStates id).rxMessage.data cfg.SlaveSyncString
      cfg.SLAVE_SYNC_STRING_LENGTH <;>
    cases env.CRC16_IsMessageValid (g.uhkModuleStates id).rxMessage <;> simp

/-- Witness for C2: a session in `ProcessSync` whose buffer holds the marker of the
sample configuration, accepted by the validator, advances to
`RequestProtocolVersion`. -/
theorem C2_process_sync_witness :
    ((globalsOf (sessionIn UhkModulePhase_ProcessSync
        (messageOf [83, 89, 78, 67, 0]))).uhkModuleStates 0).phase
      = UhkModulePhase_ProcessSync
    ∧ ((UhkModuleSlaveDriver_Update sampleConfig (sampleEnv 0 0 (messageOf []) true) 0
          (globalsOf (sessionIn UhkModulePhase_ProcessSync
            (messageOf [83, 89, 78, 67, 0])))).globals.uhkModuleStates 0).phase
        = UhkModulePhase_RequestProtocolVersion :=
  ⟨rfl, (C2_process_sync sampleConfig (sampleEnv 0 0 (messageOf []) true) 0
      (globalsOf (sessionIn UhkModulePhase_ProcessSync (messageOf [83, 89, 78, 67, 0])))
      rfl).1.mpr ⟨rfl, fun _ _ => rfl⟩⟩

/-! ## Enumeration -/

/-- C3: `isEnumerated` becomes true only in a `ProcessModuleFeatures` step that
received a valid frame. If the flag of a session is false before a call of
`UhkModuleSlaveDriver_Update` on it and true after, the phase before the call was
`ProcessModuleFeatures` and the validator accepted the received frame; and along
any sequence of calls (on any sessions, under any external outcomes) that starts
with the flag false and ends with it true, some call of the sequence was a
`ProcessModuleFeatures` step of that session with an accepted frame. -/
theorem C3_isEnumerated_only_after_valid_features (cfg : Config) (id : Nat) :
    (∀ (env : Env) (g : Globals),
      (g.uhkModuleStates id).isEnumerated = false →
      ((UhkModuleSlaveDriver_Update cfg env id g).globals.uhkModuleStates id).isEnumerated
        = true →
      (g.uhkModuleStates id).phase = UhkModulePhase_ProcessModuleFeatures
        ∧ env.CRC16_IsMessageValid (g.uhkModuleStates id).rxMessage = true)
    ∧ (∀ (calls : List (Env × Nat)) (g : Globals),
      (g.uhkModuleStates id).isEnumerated = false →
      ((runUpdates cfg calls g).uhkModuleStates id).isEnumerated = true →
      ∃ (k : Nat) (e : Env), calls[k]? = some (e, id)
        ∧ ((runUpdates cfg (calls.take k) g).uhkModuleStates id).phase
            = UhkModulePhase_ProcessModuleFeatures
        ∧ e.CRC16_IsMessageValid
            ((runUpdates cfg (calls.take k) g).uhkModuleStates id).rxMessage = true) := by
  refine ⟨?_, runUpdates_isEnumerated cfg id⟩
  intro env g h0 h1
  rw [update_isEnumerated, h0] at h1
  split at h1
  · assumption
  · simp at h1

/-- Witness for C3: a session in `ProcessModuleFeatures` with the flag false and an
accepted frame has the flag true after the call. -/
theorem C3_isEnumerated_only_after_valid_features_witness :
    ((globalsOf (sessionIn UhkModulePhase_ProcessModuleFeatures
        (messageOf [4, 0]))).uhkModuleStates 0).isEnumerated = false
    ∧ ((UhkModuleSlaveDriver_Update sampleConfig (sampleEnv 0 0 (messageOf []) true) 0
          (globalsOf (sessionIn UhkModulePhase_ProcessModuleFeatures
            (messageOf [4, 0])))).globals.uhkModuleStates 0).isEnumerated = true
    ∧ ((globalsOf (sessionIn UhkModulePhase_ProcessModuleFeatures
          (messageOf [4, 0]))).uhkModuleStates 0).phase
        = UhkModulePhase_ProcessModuleFeatures
    ∧ (sampleEnv 0 0 (messageOf []) true).CRC16_IsMessageValid
        ((globalsOf (sessionIn UhkModulePhase_ProcessModuleFeatures
          (messageOf [4, 0]))).uhkModuleStates 0).rxMessage = true :=
  ⟨rfl, rfl, (C3_isEnumerated_only_after_valid_features sampleConfig 0).1
    (sampleEnv 0 0 (messageOf []) true)
    (globalsOf (sessionIn UhkModulePhase_ProcessModuleFeatures (messageOf [4, 0])))
    rfl rfl⟩

/-- C4, as stated, fails: a session that has completed negotiation
(`isEnumerated = true`) still has `isEnumerated = true` after
`UhkModuleSlaveDriver_Init`. -/
theorem C4_init_isEnumerated_counterexample :
    ((globalsOf { sessionIn UhkModulePhase_SetTestLed (messageOf []) with
        isEnumerated := true }).uhkModuleStates 0).isEnumerated = true
    ∧ ((UhkModuleSlaveDriver_Init sampleConfig 0
        (globalsOf { sessionIn UhkModulePhase_SetTestLed (messageOf []) with
          isEnumerated := true })).uhkModuleStates 0).isEnumerated = true
    ∧ ¬ ((UhkModuleSlaveDriver_Init sampleConfig 0
        (globalsOf { sessionIn UhkModulePhase_SetTestLed (messageOf []) with
          isEnumerated := true })).uhkModuleStates 0).isEnumerated = false := by
  refine ⟨rfl, rfl, ?_⟩
  simp [UhkModuleSlaveDriver_Init, globalsOf, globalsWith, sessionIn]

/-- C4, amended: `UhkModuleSlaveDriver_Init` does not write `isEnumerated` (nor
any other identity member): for every session index and every prior state the
flag after `Init` is the flag before it, so it is false after `Init` exactly when
it was false before. -/
theorem C4_init_keeps_isEnumerated (cfg : Config) (id : Nat) (g : Globals) :
    ((UhkModuleSlaveDriver_Init cfg id g).uhkModuleStates id).isEnumerated
        = (g.uhkModuleStates id).isEnumerated
    ∧ (((UhkModuleSlaveDriver_Init cfg id g).uhkModuleStates id).isEnumerated = false
        ↔ (g.uhkModuleStates id).isEnumerated = false)
    ∧ ((UhkModuleSlaveDriver_Init cfg id g).uhkModuleStates id).protocolVersion
        = (g.uhkModuleStates id).protocolVersion
    ∧ ((UhkModuleSlaveDriver_Init cfg id g).uhkModuleStates id).moduleId
        = (g.uhkModuleStates id).moduleId
    ∧ ((UhkModuleSlaveDriver_Init cfg id g).uhkModuleStates id).features
        = (g.uhkModuleStates id).features := by
  simp [UhkModuleSlaveDriver_Init]

/-! ## Identity members -/

/-- C5: in phase `ProcessProtocolVersion` a valid frame stores payload byte 0 into
`protocolVersion` and an invalid frame leaves `protocolVersion` as it was; either
way the phase becomes `RequestModuleId`, no bus operation is issued, and
`moduleId`, `features` and `isEnumerated` keep their values. The same holds in
phase `ProcessModuleId` for `moduleId`, with next phase `RequestModuleFeatures` and
`protocolVersion`, `features`, `isEnumerated` kept. -/
theorem C5_process_version_and_id (cfg : Config) (env : Env) (id : Nat) (g : Globals) :
    ((g.uhkModuleStates id).phase = UhkModulePhase_ProcessProtocolVersion →
      (env.CRC16_IsMessageValid (g.uhkModuleStates id).rxMessage = true →
        ((UhkModuleSlaveDriver_Update cfg env id g).globals.uhkModuleStates id).protocolVersion
          = (g.uhkModuleStates id).rxMessage.data 0)
      ∧ (env.CRC16_IsMessageValid (g.uhkModuleStates id).rxMessage = false →
        ((UhkModuleSlaveDriver_Update cfg env id g).globals.uhkModuleStates id).protocolVersion
          = (g.uhkModuleStates id).protocolVersion)
      ∧ ((UhkModuleSlaveDriver_Update cfg env id g).globals.uhkModuleStates id).phase
          = UhkModulePhase_RequestModuleId
      ∧ (UhkModuleSlaveDriver_Update cfg env id g).ops = []
      ∧ (UhkModuleSlaveDriver_Update cfg env id g).status = cfg.kStatus_Uhk_NoTransfer
      ∧ ((UhkModuleSlaveDriver_Update cfg env id g).globals.uhkModuleStates id).moduleId
          = (g.uhkModuleStates id).moduleId
      ∧ ((UhkModuleSlaveDriver_Update cfg env id g).globals.uhkModuleStates id).features
          = (g.uhkModuleStates id).features
      ∧ ((UhkModuleSlaveDriver_Update cfg env id g).globals.uhkModuleStates id).isEnumerated
          = (g.uhkModuleStates id).isEnumerated)
    ∧ ((g.uhkModuleStates id).phase = UhkModulePhase_ProcessModuleId →
      (env.CRC16_IsMessageValid (g.uhkModuleStates id).rxMessage = true →
        ((UhkModuleSlaveDriver_Update cfg env id g).globals.uhkModuleStates id).moduleId
          = (g.uhkModuleStates id).rxMessage.data 0)
      ∧ (env.CRC16_IsMessageValid (g.uhkModuleStates id).rxMessage = false →
        ((UhkModuleSlaveDriver_Update cfg env id g).globals.uhkModuleStates id).moduleId
          = (g.uhkModuleStates id).moduleId)
      ∧ ((UhkModuleSlaveDriver_Update cfg env id g).globals.uhkModuleStates id).phase
          = UhkModulePhase_RequestModuleFeatures
      ∧ (UhkModuleSlaveDriver_Update cfg env id g).ops = []
      ∧ (UhkModuleSlaveDriver_Update cfg env id g).status = cfg.kStatus_Uhk_NoTransfer
      ∧ ((UhkModuleSlaveDriver_Update cfg env id g).globals.uhkModuleStates id).protocolVersion
          = (g.uhkModuleStates id).protocolVersion
      ∧ ((UhkModuleSlaveDriver_Update cfg env id g).globals.uhkModuleStates id).features
          = (g.uhkModuleStates id).features
      ∧ ((UhkModuleSlaveDriver_Update cfg env id g).globals.uhkModuleStates id).isEnumerated
          = (g.uhkModuleStates id).isEnumerated) := by
  constructor <;> intro hphase <;>
    simp only [UhkModuleSlaveDriver_Update, hphase, noTransfer, store_same] <;>
    cases env.CRC16_IsMessageValid (g.uhkModuleStates id).rxMessage <;> simp

/-- Witness for C5: a valid protocol-version frame with payload byte `0x05` gives
`protocolVersion = 5`. -/
theorem C5_process_version_and_id_witness :
    ((globalsOf (sessionIn UhkModulePhase_ProcessProtocolVersion
        (messageOf [5]))).uhkModuleStates 0).phase
      = UhkModulePhase_ProcessProtocolVersion
    ∧ ((UhkModuleSlaveDriver_Update sampleConfig (sampleEnv 0 0 (messageOf []) true) 0
          (globalsOf (sessionIn UhkModulePhase_ProcessProtocolVersion
            (messageOf [5])))).globals.uhkModuleStates 0).protocolVersion = 5 :=
  ⟨rfl, ((C5_process_version_and_id sampleConfig (sampleEnv 0 0 (messageOf []) true) 0
      (globalsOf (sessionIn UhkModulePhase_ProcessProtocolVersion (messageOf [5])))).1
      rfl).1 rfl⟩

/-- C6: the feature record is populated all or nothing. In phase
`ProcessModuleFeatures` a valid frame makes the feature record the first
`sizeof(uhk_module_features_t)` payload bytes, byte for byte (its `keyCount` being
the payload byte at the offset of that member), and sets `isEnumerated`; an invalid
frame leaves the feature record and `isEnumerated` as they were. Either way the
phase becomes `RequestKeyStates` and the status is `kStatus_Uhk_NoTransfer`. -/
theorem C6_process_features (cfg : Config) (env : Env) (id : Nat) (g : Globals)
    (hphase : (g.uhkModuleStates id).phase = UhkModulePhase_ProcessModuleFeatures) :
    (env.CRC16_IsMessageValid (g.uhkModuleStates id).rxMessage = true →
      ((UhkModuleSlaveDriver_Update cfg env id g).globals.uhkModuleStates id).features.length
          = cfg.sizeof_uhk_module_features_t
      ∧ (∀ i, i < cfg.sizeof_uhk_module_features_t →
          ((UhkModuleSlaveDriver_Update cfg env id g).globals.uhkModuleStates id).features.getD
              i 0
            = (g.uhkModuleStates id).rxMessage.data i)
      ∧ (cfg.offsetof_keyCount < cfg.sizeof_uhk_module_features_t →
          keyCount cfg
              ((UhkModuleSlaveDriver_Update cfg env id g).globals.uhkModuleStates id).features
            = (g.uhkModuleStates id).rxMessage.data cfg.offsetof_keyCount)
      ∧ ((UhkModuleSlaveDriver_Update cfg env id g).globals.uhkModuleStates id).isEnumerated
          = true)
    ∧ (env.CRC16_IsMessageValid (g.uhkModuleStates id).rxMessage = false →
      ((UhkModuleSlaveDriver_Update cfg env id g).globals.uhkModuleStates id).features
          = (g.uhkModuleStates id).features
      ∧ ((UhkModuleSlaveDriver_Update cfg env id g).globals.uhkModuleStates id).isEnumerated
          = (g.uhkModuleStates id).isEnumerated)
    ∧ ((UhkModuleSlaveDriver_Update cfg env id g).globals.uhkModuleStates id).phase
        = UhkModulePhase_RequestKeyStates
    ∧ (UhkModuleSlaveDriver_Update cfg env id g).status = cfg.kStatus_Uhk_NoTransfer := by
  simp only [UhkModuleSlaveDriver_Update, hphase, noTransfer, store_same]
  cases env.CRC16_IsMessageValid (g.uhkModuleStates id).rxMessage
  · simp
  · simp only [if_true, true_implies, memcpyBytes_length, keyCount, and_true, true_and]
    refine ⟨⟨fun i hi => memcpyBytes_getD _ _ i hi, fun h => memcpyBytes_getD _ _ _ h⟩, ?_⟩
    simp

/-- Witness for C6: a valid features frame with payload `[4, 1]` gives the feature
record `[4, 1]` with `keyCount = 4`. -/
theorem C6_process_features_witness :
    ((globalsOf (sessionIn UhkModulePhase_ProcessModuleFeatures
        (messageOf [4, 1]))).uhkModuleStates 0).phase
      = UhkModulePhase_ProcessModuleFeatures
    ∧ keyCount sampleConfig
        ((UhkModuleSlaveDriver_Update sampleConfig (sampleEnv 0 0 (messageOf []) true) 0
          (globalsOf (sessionIn UhkModulePhase_ProcessModuleFeatures
            (messageOf [4, 1])))).globals.uhkModuleStates 0).features = 4 :=
  ⟨rfl, ((C6_process_features sampleConfig (sampleEnv 0 0 (messageOf []) true) 0
      (globalsOf (sessionIn UhkModulePhase_ProcessModuleFeatures (messageOf [4, 1])))
      rfl).1 rfl).2.2.1 (by decide)⟩

/-! ## Output diff engine -/

/-- C7: in phase `SetTestLed` a transmit is issued exactly when the desired
`isTestLedOn` differs from the last applied one; it is then the single transmit,
to the firmware address of the session, of the two byte frame
`[SlaveCommand_SetTestLed, isTestLedOn]`, and the returned status is what the bus
layer returned for it. Whatever that status is, after the step the last applied
`isTestLedOn` equals the desired one, the desired outputs are unchanged and the last
applied `ledPwmBrightness` is unchanged. When the two values agree, no bus operation
is issued and the status is `kStatus_Uhk_NoTransfer`. -/
theorem C7_set_test_led (cfg : Config) (env : Env) (id : Nat) (g : Globals)
    (hphase : (g.uhkModuleStates id).phase = UhkModulePhase_SetTestLed) :
    ((UhkModuleSlaveDriver_Update cfg env id g).ops ≠ []
      ↔ (g.UhkModuleVars id).isTestLedOn ≠ (g.uhkModuleStates id).targetVars.isTestLedOn)
    ∧ ((g.UhkModuleVars id).isTestLedOn ≠ (g.uhkModuleStates id).targetVars.isTestLedOn →
      ∃ m : i2c_message_t,
        (UhkModuleSlaveDriver_Update cfg env id g).ops
          = [BusOp.write (g.uhkModuleStates id).firmwareI2cAddress m]
        ∧ m.length = 2
        ∧ m.data 0 = cfg.SlaveCommand_SetTestLed
        ∧ m.data 1 = boolToByte (g.UhkModuleVars id).isTestLedOn
        ∧ (UhkModuleSlaveDriver_Update cfg env id g).status
            = env.I2cAsyncWriteMessage (g.uhkModuleStates id).firmwareI2cAddress m)
    ∧ ((g.UhkModuleVars id).isTestLedOn = (g.uhkModuleStates id).targetVars.isTestLedOn →
      (UhkModuleSlaveDriver_Update cfg env id g).ops = []
      ∧ (UhkModuleSlaveDriver_Update cfg env id g).status = cfg.kStatus_Uhk_NoTransfer)
    ∧ ((UhkModuleSlaveDriver_Update cfg env id g).globals.uhkModuleStates
          id).targetVars.isTestLedOn
        = ((UhkModuleSlaveDriver_Update cfg env id g).globals.UhkModuleVars id).isTestLedOn
    ∧ (UhkModuleSlaveDriver_Update cfg env id g).globals.UhkModuleVars = g.UhkModuleVars
    ∧ ((UhkModuleSlaveDriver_Update cfg env id g).globals.uhkModuleStates
          id).targetVars.ledPwmBrightness
        = (g.uhkModuleStates id).targetVars.ledPwmBrightness := by
  simp only [UhkModuleSlaveDriver_Update, hphase, noTransfer, txStep]
  by_cases hd :
      (g.UhkModuleVars id).isTestLedOn = (g.uhkModuleStates id).targetVars.isTestLedOn
  · simp [hd]
  · simp only [hd, if_false, store_same, ne_eq, not_false_eq_true, true_implies]
    refine ⟨by simp, ⟨_, rfl, rfl, ?_, ?_, rfl⟩, ?_⟩
    · simp [setTx2, store]
    · simp [setTx2, store]
    · simp

/-- Witness for C7: a session in `SetTestLed` with the indicator desired on and
last applied off transmits the frame `[SlaveCommand_SetTestLed, 1]`, and a bus
status that reports a fault is returned as it is. -/
theorem C7_set_test_led_witness :
    ((globalsWith { isTestLedOn := true, ledPwmBrightness := 255 }
        (sessionIn UhkModulePhase_SetTestLed (messageOf []))).uhkModuleStates 0).phase
      = UhkModulePhase_SetTestLed
    ∧ ∃ m : i2c_message_t,
        (UhkModuleSlaveDriver_Update sampleConfig (sampleEnv (-1) 0 (messageOf []) true) 0
          (globalsWith { isTestLedOn := true, ledPwmBrightness := 255 }
            (sessionIn UhkModulePhase_SetTestLed (messageOf [])))).ops = [BusOp.write 0 m]
        ∧ m.length = 2 ∧ m.data 0 = 2 ∧ m.data 1 = 1
        ∧ (UhkModuleSlaveDriver_Update sampleConfig (sampleEnv (-1) 0 (messageOf []) true) 0
          (globalsWith { isTestLedOn := true, ledPwmBrightness := 255 }
            (sessionIn UhkModulePhase_SetTestLed (messageOf [])))).status = -1 :=
  ⟨rfl, (C7_set_test_led sampleConfig (sampleEnv (-1) 0 (messageOf []) true) 0
      (globalsWith { isTestLedOn := true, ledPwmBrightness := 255 }
        (sessionIn UhkModulePhase_SetTestLed (messageOf []))) rfl).2.1 (by decide)⟩

/-- C8: a second consecutive output step with no change to the desired value
issues no transfer. Start from any state whose session is in `SetTestLed` and make
five calls on the session, under any bus statuses, frames and validation outcomes,
the caller rewriting the desired outputs after each call as it likes but keeping
the desired `isTestLedOn` of the session: the session is then in `SetTestLed` again,
and the call made there issues no bus operation and returns
`kStatus_Uhk_NoTransfer`. The same holds for `SetLedPwmBrightness` and the desired
`ledPwmBrightness`. -/
theorem C8_second_output_step_idle (cfg : Config) (id : Nat)
    (c1 c2 c3 c4 c5 : Env × (Nat → uhk_module_vars_t)) (e6 : Env) (g : Globals) :
    ((g.uhkModuleStates id).phase = UhkModulePhase_SetTestLed →
      (∀ c ∈ [c1, c2, c3, c4, c5],
        (c.2 id).isTestLedOn = (g.UhkModuleVars id).isTestLedOn) →
      ((runWithWrites cfg id [c1, c2, c3, c4, c5] g).uhkModuleStates id).phase
          = UhkModulePhase_SetTestLed
      ∧ (UhkModuleSlaveDriver_Update cfg e6 id
          (runWithWrites cfg id [c1, c2, c3, c4, c5] g)).ops = []
      ∧ (UhkModuleSlaveDriver_Update cfg e6 id
          (runWithWrites cfg id [c1, c2, c3, c4, c5] g)).status
          = cfg.kStatus_Uhk_NoTransfer)
    ∧ ((g.uhkModuleStates id).phase = UhkModulePhase_SetLedPwmBrightness →
      (∀ c ∈ [c1, c2, c3, c4, c5],
        (c.2 id).ledPwmBrightness = (g.UhkModuleVars id).ledPwmBrightness) →
      ((runWithWrites cfg id [c1, c2, c3, c4, c5] g).uhkModuleStates id).phase
          = UhkModulePhase_SetLedPwmBrightness
      ∧ (UhkModuleSlaveDriver_Update cfg e6 id
          (runWithWrites cfg id [c1, c2, c3, c4, c5] g)).ops = []
      ∧ (UhkModuleSlaveDriver_Update cfg e6 id
          (runWithWrites cfg id [c1, c2, c3, c4, c5] g)).status
          = cfg.kStatus_Uhk_NoTransfer) := by
  have hvars : (runWithWrites cfg id [c1, c2, c3, c4, c5] g).UhkModuleVars = c5.2 := rfl
  constructor
  · intro hp hkeep
    obtain ⟨hphase, htgt⟩ := (runWithWrites_cycle cfg id c1 c2 c3 c4 c5 g).1 hp
    refine ⟨hphase, update_output_idle cfg e6 id _ (Or.inl ⟨hphase, ?_⟩)⟩
    rw [htgt, hvars]
    exact hkeep c5 (by simp)
  · intro hp hkeep
    obtain ⟨hphase, htgt⟩ := (runWithWrites_cycle cfg id c1 c2 c3 c4 c5 g).2 hp
    refine ⟨hphase, update_output_idle cfg e6 id _ (Or.inr ⟨hphase, ?_⟩)⟩
    rw [htgt, hvars]
    exact hkeep c5 (by simp)

/-- Witness for C8: a session in `SetTestLed` with the indicator desired on and last
applied off transmits at the first call; with the desired value kept, the call it
makes when it is in `SetTestLed` again issues nothing. -/
theorem C8_second_output_step_idle_witness :
    (UhkModuleSlaveDriver_Update sampleConfig (sampleEnv 0 0 (messageOf []) true) 0
        (globalsWith { isTestLedOn := true, ledPwmBrightness := 255 }
          (sessionIn UhkModulePhase_SetTestLed (messageOf [])))).ops ≠ []
    ∧ (UhkModuleSlaveDriver_Update sampleConfig (sampleEnv 0 0 (messageOf []) true) 0
        (runWithWrites sampleConfig 0
          (List.replicate 5 (sampleEnv 0 0 (messageOf []) false,
            fun _ => { isTestLedOn := true, ledPwmBrightness := 9 }))
          (globalsWith { isTestLedOn := true, ledPwmBrightness := 255 }
            (sessionIn UhkModulePhase_SetTestLed (messageOf []))))).ops = [] :=
  ⟨by simp [UhkModuleSlaveDriver_Update, globalsWith, sessionIn, txStep],
    ((C8_second_output_step_idle sampleConfig 0
      (sampleEnv 0 0 (messageOf []) false,
        fun _ => { isTestLedOn := true, ledPwmBrightness := 9 })
      (sampleEnv 0 0 (messageOf []) false,
        fun _ => { isTestLedOn := true, ledPwmBrightness := 9 })
      (sampleEnv 0 0 (messageOf []) false,
        fun _ => { isTestLedOn := true, ledPwmBrightness := 9 })
      (sampleEnv 0 0 (messageOf []) false,
        fun _ => { isTestLedOn := true, ledPwmBrightness := 9 })
      (sampleEnv 0 0 (messageOf []) false,
        fun _ => { isTestLedOn := true, ledPwmBrightness := 9 })
      (sampleEnv 0 0 (messageOf []) true)
      (globalsWith { isTestLedOn := true, ledPwmBrightness := 255 }
        (sessionIn UhkModulePhase_SetTestLed (messageOf [])))).1 rfl
      (by simp [globalsWith])).2.1⟩

/-! ## Key states -/

/-- C9: in phase `ProcessKeystates` of session `i` (an index whose successor fits
in a `uint8_t`, as every index into the module arrays does), a valid frame makes
slot `i + 1` of `CurrentKeyStates` the result of the unpacker on the payload, the
old slot and the bit count `features.keyCount`, and leaves every other slot alone;
for the unpacker as the specification describes it, the first `keyCount` entries
of the slot are then the bits of the payload and the entries from `keyCount` on
are the old ones. An invalid frame leaves the whole table alone. Either way the
phase becomes `SetTestLed`, the status is `kStatus_Uhk_NoTransfer`, no bus operation
is issued, and the identity members and the desired and last applied outputs keep
their values. -/
theorem C9_process_keystates (cfg : Config) (env : Env) (id : Nat) (g : Globals)
    (hphase : (g.uhkModuleStates id).phase = UhkModulePhase_ProcessKeystates)
    (hid : id < 255) :
    (env.CRC16_IsMessageValid (g.uhkModuleStates id).rxMessage = true →
      (UhkModuleSlaveDriver_Update cfg env id g).globals.CurrentKeyStates (id + 1)
          = env.BoolBitsToBytes (g.uhkModuleStates id).rxMessage.data
              (g.CurrentKeyStates (id + 1)) (keyCount cfg (g.uhkModuleStates id).features)
      ∧ (∀ slot, slot ≠ id + 1 →
          (UhkModuleSlaveDriver_Update cfg env id g).globals.CurrentKeyStates slot
            = g.CurrentKeyStates slot)
      ∧ (env.BoolBitsToBytes = BoolBitsToBytes →
          (∀ k, k < keyCount cfg (g.uhkModuleStates id).features →
            (UhkModuleSlaveDriver_Update cfg env id g).globals.CurrentKeyStates (id + 1) k
              = bitOfVector (g.uhkModuleStates id).rxMessage.data k)
          ∧ (∀ k, keyCount cfg (g.uhkModuleStates id).features ≤ k →
            (UhkModuleSlaveDriver_Update cfg env id g).globals.CurrentKeyStates (id + 1) k
              = g.CurrentKeyStates (id + 1) k)))
    ∧ (env.CRC16_IsMessageValid (g.uhkModuleStates id).rxMessage = false →
      (UhkModuleSlaveDriver_Update cfg env id g).globals.CurrentKeyStates
        = g.CurrentKeyStates)
    ∧ ((UhkModuleSlaveDriver_Update cfg env id g).globals.uhkModuleStates id).phase
        = UhkModulePhase_SetTestLed
    ∧ (UhkModuleSlaveDriver_Update cfg env id g).status = cfg.kStatus_Uhk_NoTransfer
    ∧ (UhkModuleSlaveDriver_Update cfg env id g).ops = []
    ∧ ((UhkModuleSlaveDriver_Update cfg env id g).globals.uhkModuleStates id).protocolVersion
        = (g.uhkModuleStates id).protocolVersion
    ∧ ((UhkModuleSlaveDriver_Update cfg env id g).globals.uhkModuleStates id).moduleId
        = (g.uhkModuleStates id).moduleId
    ∧ ((UhkModuleSlaveDriver_Update cfg env id g).globals.uhkModuleStates id).features
        = (g.uhkModuleStates id).features
    ∧ ((UhkModuleSlaveDriver_Update cfg env id g).globals.uhkModuleStates id).isEnumerated
        = (g.uhkModuleStates id).isEnumerated
    ∧ ((UhkModuleSlaveDriver_Update cfg env id g).globals.uhkModuleStates id).targetVars
        = (g.uhkModuleStates id).targetVars
    ∧ (UhkModuleSlaveDriver_Update cfg env id g).globals.UhkModuleVars = g.UhkModuleVars := by
  have hslot : (id + 1) % 256 = id + 1 := Nat.mod_eq_of_lt (by omega)
  simp only [UhkModuleSlaveDriver_Update, hphase, noTransfer, store_same, hslot]
  cases env.CRC16_IsMessageValid (g.uhkModuleStates id).rxMessage
  · simp
  · simp only [if_true, store_same, true_implies, and_true, true_and]
    refine ⟨⟨fun slot hs => store_other _ _ _ _ hs, fun hunpack => ?_⟩, by simp⟩
    rw [hunpack]
    constructor
    · intro k hk
      simp [BoolBitsToBytes, hk]
    · intro k hk
      simp [BoolBitsToBytes, Nat.not_lt.mpr hk]

/-- Witness for C9: session 0 with `keyCount = 4` and a valid frame whose first
payload byte is `0b0101` gets the key states `[true, false, true, false]` in slot 1,
and slot 2 stays as it was. -/
theorem C9_process_keystates_witness :
    (List.range 4).map
        ((UhkModuleSlaveDriver_Update sampleConfig
            (sampleEnv 0 0 (messageOf []) true) 0
            (globalsOf { sessionIn UhkModulePhase_ProcessKeystates (messageOf [5]) with
              features := [4, 0] })).globals.CurrentKeyStates 1)
      = [true, false, true, false]
    ∧ (UhkModuleSlaveDriver_Update sampleConfig
          (sampleEnv 0 0 (messageOf []) true) 0
          (globalsOf { sessionIn UhkModulePhase_ProcessKeystates (messageOf [5]) with
            features := [4, 0] })).globals.CurrentKeyStates 2
        = (globalsOf { sessionIn UhkModulePhase_ProcessKeystates (messageOf [5]) with
            features := [4, 0] }).CurrentKeyStates 2 :=
  ⟨by decide,
    ((C9_process_keystates sampleConfig
      (sampleEnv 0 0 (messageOf []) true) 0
      (globalsOf { sessionIn UhkModulePhase_ProcessKeystates (messageOf [5]) with
        features := [4, 0] }) rfl (by decide)).1 rfl).2.1 2 (by decide)⟩

/-! ## End to end -/

/-- The member `keyCount` of a feature record copied from a payload. -/
theorem keyCount_memcpyBytes (cfg : Config) (src : Nat → Nat)
    (hoff : cfg.offsetof_keyCount < cfg.sizeof_uhk_module_features_t) :
    keyCount cfg (memcpyBytes src cfg.sizeof_uhk_module_features_t)
      = src cfg.offsetof_keyCount :=
  memcpyBytes_getD src _ _ hoff

/-- The first `count` entries of a slot written by `BoolBitsToBytes`. -/
theorem map_BoolBitsToBytes (src : Nat → Nat) (dst : Nat → Bool) (count : Nat) :
    (List.range count).map (BoolBitsToBytes src dst count)
      = (List.range count).map (bitOfVector src) := by
  apply List.map_congr_left
  intro k hk
  simp [BoolBitsToBytes, List.mem_range.mp hk]

/-- C10: the end to end scenario. A session is initialised (whatever its state was
before) and makes 18 calls, six exchanges of a request, a receive and a process
call each, under any bus statuses. The exchanges deliver, in order: an invalid
frame (the sync request is therefore made again), a valid frame carrying the sync
marker, a valid frame with payload byte 3, a valid frame with payload byte 7, a
valid frame whose feature record has `keyCount = 4`, and a valid key state frame
whose first four bits are 1, 0, 1, 0. Afterwards the session has `isEnumerated`
set, `protocolVersion = 3`, `moduleId = 7`, `features.keyCount = 4`, phase
`SetTestLed`, and slot `id + 1` of `CurrentKeyStates` starts with
`[true, false, true, false]`. -/
theorem C10_scenario (cfg : Config) (id : Nat) (g0 : Globals)
    (x1 x2 x3 x4 x5 x6 : Exchange)
    (hid : id < 255)
    (hoff : cfg.offsetof_keyCount < cfg.sizeof_uhk_module_features_t)
    (h1 : x1.Delivers false)
    (h2 : x2.Delivers true)
    (hmarker : ∀ i, i < cfg.SLAVE_SYNC_STRING_LENGTH →
      x2.frame.data i = cfg.SlaveSyncString i)
    (h3 : x3.Delivers true) (hversion : x3.frame.data 0 = 3)
    (h4 : x4.Delivers true) (hmodule : x4.frame.data 0 = 7)
    (h5 : x5.Delivers true) (hkeys : x5.frame.data cfg.offsetof_keyCount = 4)
    (h6 : x6.Delivers true) (hunpack : x6.process.BoolBitsToBytes = BoolBitsToBytes)
    (hbits : (List.range 4).map (bitOfVector x6.frame.data) = [true, false, true, false]) :
    ((runSession cfg id
        (x1.envs ++ x2.envs ++ x3.envs ++ x4.envs ++ x5.envs ++ x6.envs)
        (UhkModuleSlaveDriver_Init cfg id g0)).uhkModuleStates id).isEnumerated = true
    ∧ ((runSession cfg id
        (x1.envs ++ x2.envs ++ x3.envs ++ x4.envs ++ x5.envs ++ x6.envs)
        (UhkModuleSlaveDriver_Init cfg id g0)).uhkModuleStates id).protocolVersion = 3
    ∧ ((runSession cfg id
        (x1.envs ++ x2.envs ++ x3.envs ++ x4.envs ++ x5.envs ++ x6.envs)
        (UhkModuleSlaveDriver_Init cfg id g0)).uhkModuleStates id).moduleId = 7
    ∧ keyCount cfg ((runSession cfg id
        (x1.envs ++ x2.envs ++ x3.envs ++ x4.envs ++ x5.envs ++ x6.envs)
        (UhkModuleSlaveDriver_Init cfg id g0)).uhkModuleStates id).features = 4
    ∧ ((runSession cfg id
        (x1.envs ++ x2.envs ++ x3.envs ++ x4.envs ++ x5.envs ++ x6.envs)
        (UhkModuleSlaveDriver_Init cfg id g0)).uhkModuleStates id).phase
        = UhkModulePhase_SetTestLed
    ∧ (List.range 4).map ((runSession cfg id
        (x1.envs ++ x2.envs ++ x3.envs ++ x4.envs ++ x5.envs ++ x6.envs)
        (UhkModuleSlaveDriver_Init cfg id g0)).CurrentKeyStates (id + 1))
        = [true, false, true, false]
    ∧ (x1.envs ++ x2.envs ++ x3.envs ++ x4.envs ++ x5.envs ++ x6.envs).length = 18 := by
  obtain ⟨r1, v1⟩ := h1
  obtain ⟨r2, v2⟩ := h2
  obtain ⟨r3, v3⟩ := h3
  obtain ⟨r4, v4⟩ := h4
  obtain ⟨r5, v5⟩ := h5
  obtain ⟨r6, v6⟩ := h6
  have hm := (memcmpEq_iff _ _ _).mpr hmarker
  have hslot : (id + 1) % 256 = id + 1 := Nat.mod_eq_of_lt (by omega)
  have hk := keyCount_memcpyBytes cfg x5.frame.data hoff
  rw [hkeys] at hk
  have hb := map_BoolBitsToBytes x6.frame.data (g0.CurrentKeyStates (id + 1)) 4
  rw [hbits] at hb
  refine ⟨?_, ?_, ?_, ?_, ?_, ?_, rfl⟩ <;>
    simp [runSession, runUpdates, Exchange.envs, UhkModuleSlaveDriver_Update,
      UhkModuleSlaveDriver_Init, txStep, rxStep, noTransfer, r1, v1, r2, v2, r3, v3, r4, v4,
      r5, v5, r6, v6, hm, hversion, hmodule, hk, hslot, hunpack, hb]

/-- Witness for C10: the scenario on session 0 of the sample configuration, the
key state frame carrying the byte `0b0101`. -/
theorem C10_scenario_witness :
    ((runSession sampleConfig 0
        ((sampleExchange [] false).envs ++ (sampleExchange [83, 89, 78, 67, 0] true).envs
          ++ (sampleExchange [3] true).envs ++ (sampleExchange [7] true).envs
          ++ (sampleExchange [4, 0] true).envs ++ (sampleExchange [5] true).envs)
        (UhkModuleSlaveDriver_Init sampleConfig 0
          (globalsOf (sessionIn UhkModulePhase_RequestSync (messageOf []))))).uhkModuleStates
        0).isEnumerated = true
    ∧ (List.range 4).map ((runSession sampleConfig 0
        ((sampleExchange [] false).envs ++ (sampleExchange [83, 89, 78, 67, 0] true).envs
          ++ (sampleExchange [3] true).envs ++ (sampleExchange [7] true).envs
          ++ (sampleExchange [4, 0] true).envs ++ (sampleExchange [5] true).envs)
        (UhkModuleSlaveDriver_Init sampleConfig 0
          (globalsOf (sessionIn UhkModulePhase_RequestSync (messageOf []))))).CurrentKeyStates
        1) = [true, false, true, false] :=
  have h := C10_scenario sampleConfig 0
    (globalsOf (sessionIn UhkModulePhase_RequestSync (messageOf [])))
    (sampleExchange [] false) (sampleExchange [83, 89, 78, 67, 0] true)
    (sampleExchange [3] true) (sampleExchange [7] true)
    (sampleExchange [4, 0] true) (sampleExchange [5] true)
    (by decide) (by decide)
    ⟨fun _ _ => rfl, rfl⟩ ⟨fun _ _ => rfl, rfl⟩ (fun _ _ => rfl)
    ⟨fun _ _ => rfl, rfl⟩ rfl ⟨fun _ _ => rfl, rfl⟩ rfl ⟨fun _ _ => rfl, rfl⟩ rfl
    ⟨fun _ _ => rfl, rfl⟩ rfl (by decide)
  ⟨h.1, h.2.2.2.2.2.1⟩

/-! ## Lifecycle -/

/-- C11: after `UhkModuleSlaveDriver_Disconnect` the session has `isEnumerated`
false, for every session index and prior state. When the driver id is the one the
function tests for, `SlaveId_LeftKeyboardHalf`, the flag `isConnected` of
`Slaves[SlaveId_LeftLedDriver]` is false afterwards (and no other connectivity flag
changes); for any other id every connectivity flag is unchanged. In all cases the
record of every other session is unchanged. -/
theorem C11_disconnect (cfg : Config) (id : Nat) (g : Globals) :
    ((UhkModuleSlaveDriver_Disconnect cfg id g).uhkModuleStates id).isEnumerated = false
    ∧ (id = cfg.SlaveId_LeftKeyboardHalf →
        (UhkModuleSlaveDriver_Disconnect cfg id g).Slaves_isConnected
            cfg.SlaveId_LeftLedDriver = false
        ∧ ∀ slave, slave ≠ cfg.SlaveId_LeftLedDriver →
            (UhkModuleSlaveDriver_Disconnect cfg id g).Slaves_isConnected slave
              = g.Slaves_isConnected slave)
    ∧ (id ≠ cfg.SlaveId_LeftKeyboardHalf →
        (UhkModuleSlaveDriver_Disconnect cfg id g).Slaves_isConnected
          = g.Slaves_isConnected)
    ∧ (∀ other, other ≠ id →
        (UhkModuleSlaveDriver_Disconnect cfg id g).uhkModuleStates other
          = g.uhkModuleStates other)
    ∧ (UhkModuleSlaveDriver_Disconnect cfg id g).UhkModuleVars = g.UhkModuleVars := by
  unfold UhkModuleSlaveDriver_Disconnect
  refine ⟨by simp, ?_, ?_, ?_, ?_⟩
  · intro h
    simp only [h, if_true, store_same, true_and]
    intro slave hs
    exact store_other _ _ _ _ hs
  · intro h
    simp [h]
  · intro other ho
    split <;> exact store_other _ _ _ _ ho
  · split <;> rfl

/-- Witness for C11: in the sample configuration, disconnecting session 0 (the left
keyboard half) marks slave 3 (the left LED driver) as not connected, and
disconnecting session 1 leaves that flag set. -/
theorem C11_disconnect_witness :
    (UhkModuleSlaveDriver_Disconnect sampleConfig 0
        (globalsOf (sessionIn UhkModulePhase_SetTestLed (messageOf [])))).Slaves_isConnected
        3 = false
    ∧ (UhkModuleSlaveDriver_Disconnect sampleConfig 1
        (globalsOf (sessionIn UhkModulePhase_SetTestLed (messageOf [])))).Slaves_isConnected
        3 = true :=
  ⟨((C11_disconnect sampleConfig 0
      (globalsOf (sessionIn UhkModulePhase_SetTestLed (messageOf [])))).2.1 rfl).1,
    by rw [(C11_disconnect sampleConfig 1
      (globalsOf (sessionIn UhkModulePhase_SetTestLed (messageOf [])))).2.2.1 (by decide)]
       rfl⟩

/-- C12: for a session index within the address table and any prior state, after
`UhkModuleSlaveDriver_Init` the desired outputs are `isTestLedOn = true` and
`ledPwmBrightness = MAX_PWM_BRIGHTNESS`, the last applied outputs are `false` and
`0`, the phase is `RequestSync`, and the stored firmware and bootloader addresses
are those of the entry of `moduleIdsToI2cAddresses` at that index. `Init` consults
no external collaborator (it is a function of the configuration, the index and the
globals alone) and leaves the transmit buffer, the receive buffer of the session,
the key state table, the connectivity flags and every other session as they
were. -/
theorem C12_init (cfg : Config) (id : Nat) (g : Globals)
    (hid : id < (moduleIdsToI2cAddresses cfg).length) :
    (UhkModuleSlaveDriver_Init cfg id g).UhkModuleVars id
        = { isTestLedOn := true, ledPwmBrightness := cfg.MAX_PWM_BRIGHTNESS }
    ∧ ((UhkModuleSlaveDriver_Init cfg id g).uhkModuleStates id).targetVars
        = { isTestLedOn := false, ledPwmBrightness := 0 }
    ∧ ((UhkModuleSlaveDriver_Init cfg id g).uhkModuleStates id).phase
        = UhkModulePhase_RequestSync
    ∧ ((UhkModuleSlaveDriver_Init cfg id g).uhkModuleStates id).firmwareI2cAddress
        = ((moduleIdsToI2cAddresses cfg).get ⟨id, hid⟩).firmwareI2cAddress
    ∧ ((UhkModuleSlaveDriver_Init cfg id g).uhkModuleStates id).bootloaderI2cAddress
        = ((moduleIdsToI2cAddresses cfg).get ⟨id, hid⟩).bootloaderI2cAddress
    ∧ (UhkModuleSlaveDriver_Init cfg id g).txMessage = g.txMessage
    ∧ ((UhkModuleSlaveDriver_Init cfg id g).uhkModuleStates id).rxMessage
        = (g.uhkModuleStates id).rxMessage
    ∧ (UhkModuleSlaveDriver_Init cfg id g).CurrentKeyStates = g.CurrentKeyStates
    ∧ (UhkModuleSlaveDriver_Init cfg id g).Slaves_isConnected = g.Slaves_isConnected
    ∧ (∀ other, other ≠ id →
        (UhkModuleSlaveDriver_Init cfg id g).uhkModuleStates other
            = g.uhkModuleStates other
        ∧ (UhkModuleSlaveDriver_Init cfg id g).UhkModuleVars other
            = g.UhkModuleVars other) := by
  have hget : (moduleIdsToI2cAddresses cfg).getD id
      { firmwareI2cAddress := 0, bootloaderI2cAddress := 0 }
      = (moduleIdsToI2cAddresses cfg).get ⟨id, hid⟩ := by
    simp [List.getD_eq_getElem?_getD, List.getElem?_eq_getElem hid]
  simp only [UhkModuleSlaveDriver_Init, store_same, hget, true_and]
  intro other ho
  exact ⟨store_other _ _ _ _ ho, store_other _ _ _ _ ho⟩

/-- Witness for C12: session 1 of the sample configuration (the left add-on) gets
the firmware address 24 and the bootloader address 32. -/
theorem C12_init_witness :
    ((UhkModuleSlaveDriver_Init sampleConfig 1
        (globalsOf (sessionIn UhkModulePhase_SetTestLed (messageOf [])))).uhkModuleStates
        1).firmwareI2cAddress = 24
    ∧ ((UhkModuleSlaveDriver_Init sampleConfig 1
        (globalsOf (sessionIn UhkModulePhase_SetTestLed (messageOf [])))).uhkModuleStates
        1).bootloaderI2cAddress = 32 :=
  ⟨(C12_init sampleConfig 1
      (globalsOf (sessionIn UhkModulePhase_SetTestLed (messageOf []))) (by decide)).2.2.2.1,
    (C12_init sampleConfig 1
      (globalsOf (sessionIn UhkModulePhase_SetTestLed (messageOf []))) (by decide)).2.2.2.2.1⟩

/-! ## Statuses and bus operations -/

/-- C13: the status `UhkModuleSlaveDriver_Update` returns. Whenever the call issues
a write, the status is the one the bus layer returned for that write, and whenever
it issues a read, the status is the one the bus layer returned for that read,
whatever these statuses are. The request phases always issue a write and the
receive phases always issue a read; an output phase issues a write when the desired
value differs from the last applied one. Every process phase, and an output phase
whose desired value equals the last applied one, returns `kStatus_Uhk_NoTransfer`.
So, the two constants being different, `kStatus_Uhk_IdleSlave` is returned only
when the bus layer returned it. -/
theorem C13_status (cfg : Config) (env : Env) (id : Nat) (g : Globals) :
    (∀ a m, (UhkModuleSlaveDriver_Update cfg env id g).ops = [BusOp.write a m] →
      (UhkModuleSlaveDriver_Update cfg env id g).status = env.I2cAsyncWriteMessage a m)
    ∧ (∀ a, (UhkModuleSlaveDriver_Update cfg env id g).ops = [BusOp.read a] →
      (UhkModuleSlaveDriver_Update cfg env id g).status
        = (env.I2cAsyncReadMessage a (g.uhkModuleStates id).rxMessage).1)
    ∧ ((requestProperty cfg (g.uhkModuleStates id).phase).isSome = true
        ∨ (g.uhkModuleStates id).phase = UhkModulePhase_RequestKeyStates →
      ∃ m, (UhkModuleSlaveDriver_Update cfg env id g).ops
          = [BusOp.write (g.uhkModuleStates id).firmwareI2cAddress m])
    ∧ (isReceivePhase (g.uhkModuleStates id).phase = true →
      (UhkModuleSlaveDriver_Update cfg env id g).ops
        = [BusOp.read (g.uhkModuleStates id).firmwareI2cAddress])
    ∧ (isProcessPhase (g.uhkModuleStates id).phase = true →
      (UhkModuleSlaveDriver_Update cfg env id g).status = cfg.kStatus_Uhk_NoTransfer)
    ∧ ((g.uhkModuleStates id).phase = UhkModulePhase_SetTestLed →
      ((g.UhkModuleVars id).isTestLedOn = (g.uhkModuleStates id).targetVars.isTestLedOn →
        (UhkModuleSlaveDriver_Update cfg env id g).status = cfg.kStatus_Uhk_NoTransfer)
      ∧ ((g.UhkModuleVars id).isTestLedOn ≠ (g.uhkModuleStates id).targetVars.isTestLedOn →
        ∃ m, (UhkModuleSlaveDriver_Update cfg env id g).ops
          = [BusOp.write (g.uhkModuleStates id).firmwareI2cAddress m]))
    ∧ ((g.uhkModuleStates id).phase = UhkModulePhase_SetLedPwmBrightness →
      ((g.UhkModuleVars id).ledPwmBrightness
          = (g.uhkModuleStates id).targetVars.ledPwmBrightness →
        (UhkModuleSlaveDriver_Update cfg env id g).status = cfg.kStatus_Uhk_NoTransfer)
      ∧ ((g.UhkModuleVars id).ledPwmBrightness
          ≠ (g.uhkModuleStates id).targetVars.ledPwmBrightness →
        ∃ m, (UhkModuleSlaveDriver_Update cfg env id g).ops
          = [BusOp.write (g.uhkModuleStates id).firmwareI2cAddress m]))
    ∧ (cfg.kStatus_Uhk_NoTransfer ≠ cfg.kStatus_Uhk_IdleSlave →
      (UhkModuleSlaveDriver_Update cfg env id g).status = cfg.kStatus_Uhk_IdleSlave →
      (∃ m, (UhkModuleSlaveDriver_Update cfg env id g).ops
            = [BusOp.write (g.uhkModuleStates id).firmwareI2cAddress m]
          ∧ env.I2cAsyncWriteMessage (g.uhkModuleStates id).firmwareI2cAddress m
            = cfg.kStatus_Uhk_IdleSlave)
      ∨ ((UhkModuleSlaveDriver_Update cfg env id g).ops
            = [BusOp.read (g.uhkModuleStates id).firmwareI2cAddress]
          ∧ (env.I2cAsyncReadMessage (g.uhkModuleStates id).firmwareI2cAddress
              (g.uhkModuleStates id).rxMessage).1 = cfg.kStatus_Uhk_IdleSlave)) := by
  have hcases := update_ops_status cfg env id g
  have hops := update_ops cfg env id g
  refine ⟨?_, ?_, ?_, hops.2.2.1 |> fun h hr => (h hr).1, ?_, ?_, ?_, ?_⟩
  · intro a m h
    rcases hcases with ⟨h0, _⟩ | ⟨m0, h1, hs⟩ | ⟨h2, _⟩
    · simp [h0] at h
    · rw [h1] at h
      simp only [List.cons.injEq, BusOp.write.injEq, and_true] at h
      rw [hs, h.1, h.2]
    · simp [h2] at h
  · intro a h
    rcases hcases with ⟨h0, _⟩ | ⟨m0, h1, _⟩ | ⟨h2, hs⟩
    · simp [h0] at h
    · simp [h1] at h
    · rw [h2] at h
      simp only [List.cons.injEq, BusOp.read.injEq, and_true] at h
      rw [hs, h]
  · rintro (hp | hp)
    · obtain ⟨P, hP⟩ := Option.isSome_iff_exists.mp hp
      obtain ⟨m, hm, _⟩ := hops.1 P hP
      exact ⟨m, hm⟩
    · obtain ⟨m, hm, _⟩ := hops.2.1 hp
      exact ⟨m, hm⟩
  · intro hp
    have h0 := hops.2.2.2 hp
    rcases hcases with ⟨_, hs⟩ | ⟨m0, h1, _⟩ | ⟨h2, _⟩
    · exact hs
    · simp [h0] at h1
    · simp [h0] at h2
  · intro hp
    constructor <;> intro hd <;>
      simp [UhkModuleSlaveDriver_Update, hp, hd, noTransfer, txStep]
  · intro hp
    constructor <;> intro hd <;>
      simp [UhkModuleSlaveDriver_Update, hp, hd, noTransfer, txStep]
  · intro hne hidle
    rcases hcases with ⟨_, hs⟩ | ⟨m0, h1, hs⟩ | ⟨h2, hs⟩
    · exact absurd (hs.symm.trans hidle) hne
    · exact Or.inl ⟨m0, h1, hs.symm.trans hidle⟩
    · exact Or.inr ⟨h2, hs.symm.trans hidle⟩

/-- Witness for C13: a receive step for which the bus layer reports the fault
status `-7` returns `-7`. -/
theorem C13_status_witness :
    (UhkModuleSlaveDriver_Update sampleConfig (sampleEnv 0 (-7) (messageOf []) true) 0
        (globalsOf (sessionIn UhkModulePhase_ReceiveSync (messageOf [])))).ops
      = [BusOp.read 0]
    ∧ (UhkModuleSlaveDriver_Update sampleConfig (sampleEnv 0 (-7) (messageOf []) true) 0
        (globalsOf (sessionIn UhkModulePhase_ReceiveSync (messageOf [])))).status = -7 :=
  ⟨rfl, (C13_status sampleConfig (sampleEnv 0 (-7) (messageOf []) true) 0
      (globalsOf (sessionIn UhkModulePhase_ReceiveSync (messageOf [])))).2.1 0 rfl⟩

/-- C14: every call of `UhkModuleSlaveDriver_Update` issues at most one bus
operation, addressed to the stored firmware address of the session. `RequestSync`,
`RequestProtocolVersion`, `RequestModuleId` and `RequestModuleFeatures` issue
exactly one write of the two byte frame `[SlaveCommand_RequestProperty, P]`, with
`P` the property of the phase; `RequestKeyStates` issues exactly one write of the
one byte frame `[SlaveCommand_RequestKeyStates]`; every receive phase issues
exactly one read, whose result lands in the receive buffer of the session, and no
write; every process phase issues nothing; `SetTestLed` and `SetLedPwmBrightness`
issue nothing or one write. -/
theorem C14_bus_operations (cfg : Config) (env : Env) (id : Nat) (g : Globals) :
    (UhkModuleSlaveDriver_Update cfg env id g).ops.length ≤ 1
    ∧ (∀ op ∈ (UhkModuleSlaveDriver_Update cfg env id g).ops,
        op.i2cAddress = (g.uhkModuleStates id).firmwareI2cAddress)
    ∧ (∀ P, requestProperty cfg (g.uhkModuleStates id).phase = some P →
      ∃ m, (UhkModuleSlaveDriver_Update cfg env id g).ops
          = [BusOp.write (g.uhkModuleStates id).firmwareI2cAddress m]
        ∧ m.length = 2 ∧ m.data 0 = cfg.SlaveCommand_RequestProperty ∧ m.data 1 = P)
    ∧ (requestProperty cfg UhkModulePhase_RequestSync = some cfg.SlaveProperty_Sync
      ∧ requestProperty cfg UhkModulePhase_RequestProtocolVersion
          = some cfg.SlaveProperty_ProtocolVersion
      ∧ requestProperty cfg UhkModulePhase_RequestModuleId = some cfg.SlaveProperty_ModuleId
      ∧ requestProperty cfg UhkModulePhase_RequestModuleFeatures
          = some cfg.SlaveProperty_Features)
    ∧ ((g.uhkModuleStates id).phase = UhkModulePhase_RequestKeyStates →
      ∃ m, (UhkModuleSlaveDriver_Update cfg env id g).ops
          = [BusOp.write (g.uhkModuleStates id).firmwareI2cAddress m]
        ∧ m.length = 1 ∧ m.data 0 = cfg.SlaveCommand_RequestKeyStates)
    ∧ (isReceivePhase (g.uhkModuleStates id).phase = true →
      (UhkModuleSlaveDriver_Update cfg env id g).ops
          = [BusOp.read (g.uhkModuleStates id).firmwareI2cAddress]
        ∧ ((UhkModuleSlaveDriver_Update cfg env id g).globals.uhkModuleStates id).rxMessage
          = (env.I2cAsyncReadMessage (g.uhkModuleStates id).firmwareI2cAddress
              (g.uhkModuleStates id).rxMessage).2)
    ∧ (isProcessPhase (g.uhkModuleStates id).phase = true →
      (UhkModuleSlaveDriver_Update cfg env id g).ops = [])
    ∧ ((g.uhkModuleStates id).phase = UhkModulePhase_SetTestLed
        ∨ (g.uhkModuleStates id).phase = UhkModulePhase_SetLedPwmBrightness →
      (UhkModuleSlaveDriver_Update cfg env id g).ops = []
      ∨ ∃ m, (UhkModuleSlaveDriver_Update cfg env id g).ops
          = [BusOp.write (g.uhkModuleStates id).firmwareI2cAddress m]) := by
  have hcases := update_ops_status cfg env id g
  have hops := update_ops cfg env id g
  refine ⟨?_, ?_, hops.1, ⟨rfl, rfl, rfl, rfl⟩, hops.2.1, hops.2.2.1, hops.2.2.2, ?_⟩
  · rcases hcases with ⟨h0, _⟩ | ⟨m0, h1, _⟩ | ⟨h2, _⟩
    · simp [h0]
    · simp [h1]
    · simp [h2]
  · rcases hcases with ⟨h0, _⟩ | ⟨m0, h1, _⟩ | ⟨h2, _⟩
    · simp [h0]
    · simp [h1, BusOp.i2cAddress]
    · simp [h2, BusOp.i2cAddress]
  · rintro (hp | hp)
    · by_cases hd : (g.UhkModuleVars id).isTestLedOn
          = (g.uhkModuleStates id).targetVars.isTestLedOn <;>
        simp [UhkModuleSlaveDriver_Update, hp, hd, noTransfer, txStep]
    · by_cases hd : (g.UhkModuleVars id).ledPwmBrightness
          = (g.uhkModuleStates id).targetVars.ledPwmBrightness <;>
        simp [UhkModuleSlaveDriver_Update, hp, hd, noTransfer, txStep]

/-- Witness for C14: session 1 of the sample configuration, initialised, sends the
frame `[SlaveCommand_RequestProperty, SlaveProperty_Sync]` to the firmware address
24 at its first call. -/
theorem C14_bus_operations_witness :
    requestProperty sampleConfig
        ((UhkModuleSlaveDriver_Init sampleConfig 1
          (globalsOf (sessionIn UhkModulePhase_SetTestLed (messageOf [])))).uhkModuleStates
          1).phase = some 0
    ∧ ∃ m, (UhkModuleSlaveDriver_Update sampleConfig (sampleEnv 0 0 (messageOf []) true) 1
          (UhkModuleSlaveDriver_Init sampleConfig 1
            (globalsOf (sessionIn UhkModulePhase_SetTestLed (messageOf []))))).ops
          = [BusOp.write 24 m]
        ∧ m.length = 2 ∧ m.data 0 = 0 ∧ m.data 1 = 0 :=
  ⟨rfl, (C14_bus_operations sampleConfig (sampleEnv 0 0 (messageOf []) true) 1
      (UhkModuleSlaveDriver_Init sampleConfig 1
        (globalsOf (sessionIn UhkModulePhase_SetTestLed (messageOf []))))).2.2.1 0 rfl⟩

/-- C16: in phase `SetLedPwmBrightness` a transmit is issued exactly when the
desired `ledPwmBrightness` differs from the last applied one; it is then the single
transmit, to the firmware address of the session, of the two byte frame
`[SlaveCommand_SetLedPwmBrightness, ledPwmBrightness]`, and the returned status is
what the bus layer returned for it. Whatever that status is, after the step the last
applied `ledPwmBrightness` equals the desired one, the last applied `isTestLedOn`
and both desired outputs are unchanged, and the phase is `RequestKeyStates`. -/
theorem C16_set_led_pwm_brightness (cfg : Config) (env : Env) (id : Nat) (g : Globals)
    (hphase : (g.uhkModuleStates id).phase = UhkModulePhase_SetLedPwmBrightness) :
    ((UhkModuleSlaveDriver_Update cfg env id g).ops ≠ []
      ↔ (g.UhkModuleVars id).ledPwmBrightness
          ≠ (g.uhkModuleStates id).targetVars.ledPwmBrightness)
    ∧ ((g.UhkModuleVars id).ledPwmBrightness
          ≠ (g.uhkModuleStates id).targetVars.ledPwmBrightness →
      ∃ m : i2c_message_t,
        (UhkModuleSlaveDriver_Update cfg env id g).ops
          = [BusOp.write (g.uhkModuleStates id).firmwareI2cAddress m]
        ∧ m.length = 2
        ∧ m.data 0 = cfg.SlaveCommand_SetLedPwmBrightness
        ∧ m.data 1 = (g.UhkModuleVars id).ledPwmBrightness
        ∧ (UhkModuleSlaveDriver_Update cfg env id g).status
            = env.I2cAsyncWriteMessage (g.uhkModuleStates id).firmwareI2cAddress m)
    ∧ ((g.UhkModuleVars id).ledPwmBrightness
          = (g.uhkModuleStates id).targetVars.ledPwmBrightness →
      (UhkModuleSlaveDriver_Update cfg env id g).ops = []
      ∧ (UhkModuleSlaveDriver_Update cfg env id g).status = cfg.kStatus_Uhk_NoTransfer)
    ∧ ((UhkModuleSlaveDriver_Update cfg env id g).globals.uhkModuleStates
          id).targetVars.ledPwmBrightness
        = ((UhkModuleSlaveDriver_Update cfg env id g).globals.UhkModuleVars
            id).ledPwmBrightness
    ∧ ((UhkModuleSlaveDriver_Update cfg env id g).globals.uhkModuleStates
          id).targetVars.isTestLedOn
        = (g.uhkModuleStates id).targetVars.isTestLedOn
    ∧ (UhkModuleSlaveDriver_Update cfg env id g).globals.UhkModuleVars = g.UhkModuleVars
    ∧ ((UhkModuleSlaveDriver_Update cfg env id g).globals.uhkModuleStates id).phase
        = UhkModulePhase_RequestKeyStates := by
  simp only [UhkModuleSlaveDriver_Update, hphase, noTransfer, txStep]
  by_cases hd : (g.UhkModuleVars id).ledPwmBrightness
      = (g.uhkModuleStates id).targetVars.ledPwmBrightness
  · simp [hd]
  · simp only [hd, if_false, store_same, ne_eq, not_false_eq_true, true_implies]
    refine ⟨by simp, ⟨_, rfl, rfl, ?_, ?_, rfl⟩, ?_⟩
    · simp [setTx2, store]
    · simp [setTx2, store]
    · simp

/-- Witness for C16: a session in `SetLedPwmBrightness` with brightness 255 desired
and 0 last applied transmits `[SlaveCommand_SetLedPwmBrightness, 255]`. -/
theorem C16_set_led_pwm_brightness_witness :
    ((globalsWith { isTestLedOn := true, ledPwmBrightness := 255 }
        (sessionIn UhkModulePhase_SetLedPwmBrightness (messageOf []))).uhkModuleStates
        0).phase = UhkModulePhase_SetLedPwmBrightness
    ∧ ∃ m : i2c_message_t,
        (UhkModuleSlaveDriver_Update sampleConfig (sampleEnv 0 0 (messageOf []) true) 0
          (globalsWith { isTestLedOn := true, ledPwmBrightness := 255 }
            (sessionIn UhkModulePhase_SetLedPwmBrightness (messageOf [])))).ops
          = [BusOp.write 0 m]
        ∧ m.length = 2 ∧ m.data 0 = 3 ∧ m.data 1 = 255
        ∧ (UhkModuleSlaveDriver_Update sampleConfig (sampleEnv 0 0 (messageOf []) true) 0
          (globalsWith { isTestLedOn := true, ledPwmBrightness := 255 }
            (sessionIn UhkModulePhase_SetLedPwmBrightness (messageOf [])))).status = 0 :=
  ⟨rfl, (C16_set_led_pwm_brightness sampleConfig (sampleEnv 0 0 (messageOf []) true) 0
      (globalsWith { isTestLedOn := true, ledPwmBrightness := 255 }
        (sessionIn UhkModulePhase_SetLedPwmBrightness (messageOf []))) rfl).2.1 (by decide)⟩

/-! ## The number of phases -/

/-- C15, as stated, fails: for session 0 of the sample configuration there is no
list of 14 distinct phases that holds exactly the phases reachable from
`UhkModuleSlaveDriver_Init` by calls of `UhkModuleSlaveDriver_Update`. -/
theorem C15_fourteen_phases_counterexample :
    ¬ ∃ l : List uhk_module_phase_t, l.Nodup ∧ l.length = 14
        ∧ ∀ p, Reachable sampleConfig 0 p ↔ p ∈ l := by
  rintro ⟨l, -, hlen, hl⟩
  have hsub : phaseOrder ⊆ l := fun p _ => (hl p).mp (reachable_all sampleConfig 0 p)
  have hle := (List.Nodup.subperm (by decide : phaseOrder.Nodup) hsub).length_le
  rw [hlen] at hle
  exact absurd hle (by decide)

/-- C15, amended: the phase is an enumerated cursor over 17 phases. The 17 case
labels of the `switch` in `UhkModuleSlaveDriver_Update`, which are the 17 phases the
specification lists in order, are pairwise distinct, they are all the values of the
phase, and a session reaches every one of them from `UhkModuleSlaveDriver_Init` by
calls of `UhkModuleSlaveDriver_Update`: the set of reachable phases has exactly 17
elements. -/
theorem C15_seventeen_phases (cfg : Config) (id : Nat) :
    phaseOrder.Nodup ∧ phaseOrder.length = 17
    ∧ (∀ p, Reachable cfg id p ↔ p ∈ phaseOrder)
    ∧ (∀ p, Reachable cfg id p) :=
  ⟨by decide, rfl, fun p => ⟨fun _ => phaseOrder_complete p, fun _ => reachable_all cfg id p⟩,
    reachable_all cfg id⟩

/-! ## Perpetual resynchronisation -/

/-- C17: a module that never answers with a valid sync keeps the session in
resynchronisation. Start from a freshly initialised session and make any number
`n` of calls under any bus statuses; if every call made in `ProcessSync` sees a
frame that is invalid or does not carry the marker, then after the `n` calls the
phase is the `(n mod 3)`-th of `RequestSync`, `ReceiveSync`, `ProcessSync`, and
`protocolVersion`, `moduleId`, `features`, `isEnumerated`, the last applied outputs
and the key state table are what they were right after `Init`. -/
theorem C17_perpetual_resync (cfg : Config) (id : Nat) (g0 : Globals) (envs : List Env)
    (hnever : NeverSyncs cfg id envs (UhkModuleSlaveDriver_Init cfg id g0)) :
    ((runSession cfg id envs (UhkModuleSlaveDriver_Init cfg id g0)).uhkModuleStates id).phase
        = syncLoop.getD (envs.length % 3) UhkModulePhase_RequestSync
    ∧ ((runSession cfg id envs (UhkModuleSlaveDriver_Init cfg id g0)).uhkModuleStates
          id).phase ∈ syncLoop
    ∧ ((runSession cfg id envs (UhkModuleSlaveDriver_Init cfg id g0)).uhkModuleStates
          id).protocolVersion
        = ((UhkModuleSlaveDriver_Init cfg id g0).uhkModuleStates id).protocolVersion
    ∧ ((runSession cfg id envs (UhkModuleSlaveDriver_Init cfg id g0)).uhkModuleStates
          id).moduleId
        = ((UhkModuleSlaveDriver_Init cfg id g0).uhkModuleStates id).moduleId
    ∧ ((runSession cfg id envs (UhkModuleSlaveDriver_Init cfg id g0)).uhkModuleStates
          id).features
        = ((UhkModuleSlaveDriver_Init cfg id g0).uhkModuleStates id).features
    ∧ ((runSession cfg id envs (UhkModuleSlaveDriver_Init cfg id g0)).uhkModuleStates
          id).isEnumerated
        = ((UhkModuleSlaveDriver_Init cfg id g0).uhkModuleStates id).isEnumerated
    ∧ ((runSession cfg id envs (UhkModuleSlaveDriver_Init cfg id g0)).uhkModuleStates
          id).targetVars
        = ((UhkModuleSlaveDriver_Init cfg id g0).uhkModuleStates id).targetVars
    ∧ (runSession cfg id envs (UhkModuleSlaveDriver_Init cfg id g0)).CurrentKeyStates
        = (UhkModuleSlaveDriver_Init cfg id g0).CurrentKeyStates := by
  have hinit : ((UhkModuleSlaveDriver_Init cfg id g0).uhkModuleStates id).phase
      = syncLoop.getD 0 UhkModulePhase_RequestSync := by
    simp [UhkModuleSlaveDriver_Init, syncLoop]
  obtain ⟨j0, j1, j2, j3, j4, j5, j6⟩ :=
    runSession_syncLoop cfg id envs (UhkModuleSlaveDriver_Init cfg id g0) 0 (by decide)
      hinit hnever
  rw [Nat.zero_add] at j0
  refine ⟨j0, ?_, j1, j2, j3, j4, j5, j6⟩
  rw [j0]
  have hlt : envs.length % 3 < 3 := Nat.mod_lt _ (by decide)
  interval_cases envs.length % 3 <;> simp [syncLoop]

/-- Witness for C17: seven calls under a validator that rejects every frame leave
session 0 of the sample configuration in `ReceiveSync`, not enumerated. -/
theorem C17_perpetual_resync_witness :
    ((runSession sampleConfig 0 (List.replicate 7 (sampleEnv 0 0 (messageOf []) false))
        (UhkModuleSlaveDriver_Init sampleConfig 0
          (globalsOf (sessionIn UhkModulePhase_SetTestLed (messageOf []))))).uhkModuleStates
        0).phase = UhkModulePhase_ReceiveSync
    ∧ ((runSession sampleConfig 0 (List.replicate 7 (sampleEnv 0 0 (messageOf []) false))
        (UhkModuleSlaveDriver_Init sampleConfig 0
          (globalsOf (sessionIn UhkModulePhase_SetTestLed (messageOf []))))).uhkModuleStates
        0).isEnumerated = false :=
  have h := C17_perpetual_resync sampleConfig 0
    (globalsOf (sessionIn UhkModulePhase_SetTestLed (messageOf [])))
    (List.replicate 7 (sampleEnv 0 0 (messageOf []) false))
    (by
      intro k e hk _
      have he : e = sampleEnv 0 0 (messageOf []) false := by
        rw [List.getElem?_replicate] at hk
        split at hk
        · exact (Option.some.inj hk).symm
        · exact absurd hk (by simp)
      subst he
      simp [syncFrameOk, sampleEnv])
  ⟨h.1, h.2.2.2.2.2.1⟩

/-! ## Steady state -/

/-- C18: negotiation runs once and the identity is written only during
negotiation. For a session whose phase is in the steady-state region
(`RequestKeyStates`, `ReceiveKeystates`, `ProcessKeystates`, `SetTestLed`,
`SetLedPwmBrightness`), every call of `UhkModuleSlaveDriver_Update`, under every
external outcome, leaves the phase in the region and leaves `protocolVersion`,
`moduleId`, `features` and `isEnumerated` as they were; the same holds along any
sequence of calls on any sessions. Hence after a `ProcessModuleFeatures` step no
sequence of calls takes the session back to a negotiation phase or changes what
was negotiated. -/
theorem C18_steady_state_closed (cfg : Config) (id : Nat) :
    (∀ p, inSteadyState p = true ↔
      (p = UhkModulePhase_RequestKeyStates ∨ p = UhkModulePhase_ReceiveKeystates
        ∨ p = UhkModulePhase_ProcessKeystates ∨ p = UhkModulePhase_SetTestLed
        ∨ p = UhkModulePhase_SetLedPwmBrightness))
    ∧ (∀ (env : Env) (g : Globals),
      inSteadyState (g.uhkModuleStates id).phase = true →
      inSteadyState
          ((UhkModuleSlaveDriver_Update cfg env id g).globals.uhkModuleStates id).phase = true
      ∧ ((UhkModuleSlaveDriver_Update cfg env id g).globals.uhkModuleStates id).protocolVersion
          = (g.uhkModuleStates id).protocolVersion
      ∧ ((UhkModuleSlaveDriver_Update cfg env id g).globals.uhkModuleStates id).moduleId
          = (g.uhkModuleStates id).moduleId
      ∧ ((UhkModuleSlaveDriver_Update cfg env id g).globals.uhkModuleStates id).features
          = (g.uhkModuleStates id).features
      ∧ ((UhkModuleSlaveDriver_Update cfg env id g).globals.uhkModuleStates id).isEnumerated
          = (g.uhkModuleStates id).isEnumerated)
    ∧ (∀ (calls : List (Env × Nat)) (g : Globals),
      inSteadyState (g.uhkModuleStates id).phase = true →
      inSteadyState ((runUpdates cfg calls g).uhkModuleStates id).phase = true
      ∧ ((runUpdates cfg calls g).uhkModuleStates id).protocolVersion
          = (g.uhkModuleStates id).protocolVersion
      ∧ ((runUpdates cfg calls g).uhkModuleStates id).moduleId
          = (g.uhkModuleStates id).moduleId
      ∧ ((runUpdates cfg calls g).uhkModuleStates id).features
          = (g.uhkModuleStates id).features
      ∧ ((runUpdates cfg calls g).uhkModuleStates id).isEnumerated
          = (g.uhkModuleStates id).isEnumerated)
    ∧ (∀ (env : Env) (g : Globals) (calls : List (Env × Nat)),
      (g.uhkModuleStates id).phase = UhkModulePhase_ProcessModuleFeatures →
      inSteadyState ((runUpdates cfg calls
          (UhkModuleSlaveDriver_Update cfg env id g).globals).uhkModuleStates id).phase = true
      ∧ ((runUpdates cfg calls
          (UhkModuleSlaveDriver_Update cfg env id g).globals).uhkModuleStates
            id).protocolVersion
          = ((UhkModuleSlaveDriver_Update cfg env id g).globals.uhkModuleStates
              id).protocolVersion
      ∧ ((runUpdates cfg calls
          (UhkModuleSlaveDriver_Update cfg env id g).globals).uhkModuleStates id).moduleId
          = ((UhkModuleSlaveDriver_Update cfg env id g).globals.uhkModuleStates id).moduleId
      ∧ ((runUpdates cfg calls
          (UhkModuleSlaveDriver_Update cfg env id g).globals).uhkModuleStates id).features
          = ((UhkModuleSlaveDriver_Update cfg env id g).globals.uhkModuleStates id).features
      ∧ ((runUpdates cfg calls
          (UhkModuleSlaveDriver_Update cfg env id g).globals).uhkModuleStates
            id).isEnumerated
          = ((UhkModuleSlaveDriver_Update cfg env id g).globals.uhkModuleStates
              id).isEnumerated) := by
  refine ⟨?_, fun env g h => update_in_steadyState cfg env id g h,
    runUpdates_steadyState cfg id, ?_⟩
  · intro p
    cases p <;> simp [inSteadyState, steadyCycle]
  · intro env g calls hp
    apply runUpdates_steadyState cfg id calls
    rw [update_phase, hp]
    rfl

/-- Witness for C18: an enumerated session in `SetLedPwmBrightness` is in
`RequestKeyStates`, still enumerated, after one call. -/
theorem C18_steady_state_closed_witness :
    inSteadyState ((UhkModuleSlaveDriver_Update sampleConfig
        (sampleEnv 0 0 (messageOf []) true) 0
        (globalsOf { sessionIn UhkModulePhase_SetLedPwmBrightness (messageOf []) with
          isEnumerated := true })).globals.uhkModuleStates 0).phase = true
    ∧ ((UhkModuleSlaveDriver_Update sampleConfig (sampleEnv 0 0 (messageOf []) true) 0
        (globalsOf { sessionIn UhkModulePhase_SetLedPwmBrightness (messageOf []) with
          isEnumerated := true })).globals.uhkModuleStates 0).isEnumerated = true :=
  have h := (C18_steady_state_closed sampleConfig 0).2.1
    (sampleEnv 0 0 (messageOf []) true)
    (globalsOf { sessionIn UhkModulePhase_SetLedPwmBrightness (messageOf []) with
      isEnumerated := true }) (by decide)
  ⟨h.1, h.2.2.2.2⟩

/-! ## Independence of sessions -/

/-- C19: a call on session `i` touches only session `i`. For every other session
`j` the whole record of `j` (phase, `protocolVersion`, `moduleId`, `features`,
`isEnumerated`, the stored bus addresses, the receive buffer and the last applied
outputs) and the desired outputs of `j` are unchanged; every key state slot other
than slot `i + 1` is unchanged; and of the state shared between the sessions the
call writes only the transmit buffer: the desired outputs of every session and the
connectivity flags are unchanged. -/
theorem C19_update_touches_own_session (cfg : Config) (env : Env) (i j : Nat)
    (g : Globals) (hij : i ≠ j) (hi : i < 255) :
    (UhkModuleSlaveDriver_Update cfg env i g).globals.uhkModuleStates j
        = g.uhkModuleStates j
    ∧ (UhkModuleSlaveDriver_Update cfg env i g).globals.UhkModuleVars j
        = g.UhkModuleVars j
    ∧ (∀ slot, slot ≠ i + 1 →
        (UhkModuleSlaveDriver_Update cfg env i g).globals.CurrentKeyStates slot
          = g.CurrentKeyStates slot)
    ∧ (UhkModuleSlaveDriver_Update cfg env i g).globals.UhkModuleVars = g.UhkModuleVars
    ∧ (UhkModuleSlaveDriver_Update cfg env i g).globals.Slaves_isConnected
        = g.Slaves_isConnected := by
  have hslot : (i + 1) % 256 = i + 1 := Nat.mod_eq_of_lt (by omega)
  refine ⟨update_other_session cfg env i j g (Ne.symm hij), ?_, ?_,
    update_vars cfg env i g, update_slaves cfg env i g⟩
  · rw [update_vars]
  · intro slot hs
    exact update_keyStates_other cfg env i slot g (by rw [hslot]; exact hs)

/-- Witness for C19: a `ProcessKeystates` call on session 0 with an accepted frame
leaves the record of session 1 and key state slot 2 as they were. -/
theorem C19_update_touches_own_session_witness :
    ((UhkModuleSlaveDriver_Update sampleConfig (sampleEnv 0 0 (messageOf []) true) 0
        (globalsOf { sessionIn UhkModulePhase_ProcessKeystates (messageOf [5]) with
          features := [4, 0] })).globals.uhkModuleStates 1).phase
      = UhkModulePhase_ProcessKeystates
    ∧ (UhkModuleSlaveDriver_Update sampleConfig (sampleEnv 0 0 (messageOf []) true) 0
        (globalsOf { sessionIn UhkModulePhase_ProcessKeystates (messageOf [5]) with
          features := [4, 0] })).globals.CurrentKeyStates 2 0 = false :=
  have h := C19_update_touches_own_session sampleConfig
    (sampleEnv 0 0 (messageOf []) true) 0 1
    (globalsOf { sessionIn UhkModulePhase_ProcessKeystates (messageOf [5]) with
      features := [4, 0] }) (by decide) (by decide)
  ⟨by rw [h.1]; rfl, by rw [h.2.2.1 2 (by decide)]; rfl⟩

/-! ## Disconnect -/

/-- C20: `UhkModuleSlaveDriver_Disconnect` does not restart negotiation. It leaves
the phase, `protocolVersion`, `moduleId`, `features`, the bus addresses, the desired
outputs and the last applied outputs of the session as they were. So, when it is
called with the session in the steady-state region, then after any sequence of
`UhkModuleSlaveDriver_Update` calls (on any sessions, whatever the module sends)
`isEnumerated` is still false and the session is still in the steady-state region;
the session goes on through the cycle `RequestKeyStates`, `ReceiveKeystates`,
`ProcessKeystates`, `SetTestLed`, `SetLedPwmBrightness`, still sending the key state
request in `RequestKeyStates` and still writing the key states of every accepted
frame into its slot in `ProcessKeystates`. -/
theorem C20_disconnect_keeps_polling (cfg : Config) (id : Nat) (g : Globals) :
    (((UhkModuleSlaveDriver_Disconnect cfg id g).uhkModuleStates id).phase
        = (g.uhkModuleStates id).phase
      ∧ ((UhkModuleSlaveDriver_Disconnect cfg id g).uhkModuleStates id).protocolVersion
        = (g.uhkModuleStates id).protocolVersion
      ∧ ((UhkModuleSlaveDriver_Disconnect cfg id g).uhkModuleStates id).moduleId
        = (g.uhkModuleStates id).moduleId
      ∧ ((UhkModuleSlaveDriver_Disconnect cfg id g).uhkModuleStates id).features
        = (g.uhkModuleStates id).features
      ∧ ((UhkModuleSlaveDriver_Disconnect cfg id g).uhkModuleStates id).firmwareI2cAddress
        = (g.uhkModuleStates id).firmwareI2cAddress
      ∧ ((UhkModuleSlaveDriver_Disconnect cfg id g).uhkModuleStates id).bootloaderI2cAddress
        = (g.uhkModuleStates id).bootloaderI2cAddress
      ∧ ((UhkModuleSlaveDriver_Disconnect cfg id g).uhkModuleStates id).targetVars
        = (g.uhkModuleStates id).targetVars
      ∧ (UhkModuleSlaveDriver_Disconnect cfg id g).UhkModuleVars = g.UhkModuleVars)
    ∧ (inSteadyState (g.uhkModuleStates id).phase = true →
      (∀ calls : List (Env × Nat),
        ((runUpdates cfg calls
            (UhkModuleSlaveDriver_Disconnect cfg id g)).uhkModuleStates id).isEnumerated
          = false
        ∧ inSteadyState ((runUpdates cfg calls
            (UhkModuleSlaveDriver_Disconnect cfg id g)).uhkModuleStates id).phase = true)
      ∧ (∀ r, r < 5 →
        (g.uhkModuleStates id).phase
          = steadyCycle.getD r UhkModulePhase_RequestKeyStates →
        ∀ envs : List Env,
          ((runSession cfg id envs
              (UhkModuleSlaveDriver_Disconnect cfg id g)).uhkModuleStates id).phase
            = steadyCycle.getD ((r + envs.length) % 5) UhkModulePhase_RequestKeyStates)
      ∧ (∀ (calls : List (Env × Nat)) (env : Env),
        ((runUpdates cfg calls
            (UhkModuleSlaveDriver_Disconnect cfg id g)).uhkModuleStates id).phase
          = UhkModulePhase_RequestKeyStates →
        ∃ m, (UhkModuleSlaveDriver_Update cfg env id
              (runUpdates cfg calls (UhkModuleSlaveDriver_Disconnect cfg id g))).ops
            = [BusOp.write ((runUpdates cfg calls
                (UhkModuleSlaveDriver_Disconnect cfg id g)).uhkModuleStates
                  id).firmwareI2cAddress m]
          ∧ m.length = 1 ∧ m.data 0 = cfg.SlaveCommand_RequestKeyStates)
      ∧ (∀ (calls : List (Env × Nat)) (env : Env),
        ((runUpdates cfg calls
            (UhkModuleSlaveDriver_Disconnect cfg id g)).uhkModuleStates id).phase
          = UhkModulePhase_ProcessKeystates →
        env.CRC16_IsMessageValid ((runUpdates cfg calls
            (UhkModuleSlaveDriver_Disconnect cfg id g)).uhkModuleStates id).rxMessage
          = true →
        (UhkModuleSlaveDriver_Update cfg env id
            (runUpdates cfg calls
              (UhkModuleSlaveDriver_Disconnect cfg id g))).globals.CurrentKeyStates
            ((id + 1) % 256)
          = env.BoolBitsToBytes
              ((runUpdates cfg calls
                (UhkModuleSlaveDriver_Disconnect cfg id g)).uhkModuleStates
                  id).rxMessage.data
              ((runUpdates cfg calls
                (UhkModuleSlaveDriver_Disconnect cfg id g)).CurrentKeyStates
                  ((id + 1) % 256))
              (keyCount cfg ((runUpdates cfg calls
                (UhkModuleSlaveDriver_Disconnect cfg id g)).uhkModuleStates id).features)
        ∧ ((UhkModuleSlaveDriver_Update cfg env id
            (runUpdates cfg calls
              (UhkModuleSlaveDriver_Disconnect cfg id g))).globals.uhkModuleStates
              id).isEnumerated = false)) := by
  have hd := disconnect_session cfg id g
  have hvars : (UhkModuleSlaveDriver_Disconnect cfg id g).UhkModuleVars = g.UhkModuleVars := by
    unfold UhkModuleSlaveDriver_Disconnect
    split <;> rfl
  refine ⟨by simp [hd, hvars], ?_⟩
  intro hsteady
  have hsteadyD :
      inSteadyState ((UhkModuleSlaveDriver_Disconnect cfg id g).uhkModuleStates id).phase
        = true := by
    rw [hd]
    exact hsteady
  have hfalse : ((UhkModuleSlaveDriver_Disconnect cfg id g).uhkModuleStates id).isEnumerated
      = false := by
    rw [hd]
  have hrun : ∀ calls : List (Env × Nat),
      ((runUpdates cfg calls
          (UhkModuleSlaveDriver_Disconnect cfg id g)).uhkModuleStates id).isEnumerated
        = false
      ∧ inSteadyState ((runUpdates cfg calls
          (UhkModuleSlaveDriver_Disconnect cfg id g)).uhkModuleStates id).phase = true := by
    intro calls
    obtain ⟨j0, _, _, _, j4⟩ := runUpdates_steadyState cfg id calls _ hsteadyD
    exact ⟨j4.trans hfalse, j0⟩
  refine ⟨hrun, ?_, ?_, ?_⟩
  · intro r hr hp envs
    exact runSession_steadyCycle cfg id envs _ r hr (by rw [hd]; exact hp)
  · intro calls env hp
    exact (update_ops cfg env id _).2.1 hp
  · intro calls env hp hv
    refine ⟨update_processKeystates_valid cfg env id _ hp hv, ?_⟩
    rw [(update_in_steadyState cfg env id _ (hrun calls).2).2.2.2.2]
    exact (hrun calls).1

/-- Witness for C20: an enumerated session is disconnected in `ProcessKeystates`;
three calls later it is in `RequestKeyStates` again, still not enumerated, and in
between it has written the key states of the accepted frame `0b0101` into slot 1. -/
theorem C20_disconnect_keeps_polling_witness :
    ((runSession sampleConfig 0 (List.replicate 3 (sampleEnv 0 0 (messageOf [5]) true))
        (UhkModuleSlaveDriver_Disconnect sampleConfig 0
          (globalsOf { sessionIn UhkModulePhase_ProcessKeystates (messageOf [5]) with
            features := [4, 0], isEnumerated := true }))).uhkModuleStates 0).phase
      = UhkModulePhase_RequestKeyStates
    ∧ ((runUpdates sampleConfig
        (List.replicate 3 (sampleEnv 0 0 (messageOf [5]) true, 0))
        (UhkModuleSlaveDriver_Disconnect sampleConfig 0
          (globalsOf { sessionIn UhkModulePhase_ProcessKeystates (messageOf [5]) with
            features := [4, 0], isEnumerated := true }))).uhkModuleStates 0).isEnumerated
      = false
    ∧ (List.range 4).map ((runUpdates sampleConfig
        (List.replicate 3 (sampleEnv 0 0 (messageOf [5]) true, 0))
        (UhkModuleSlaveDriver_Disconnect sampleConfig 0
          (globalsOf { sessionIn UhkModulePhase_ProcessKeystates (messageOf [5]) with
            features := [4, 0], isEnumerated := true }))).CurrentKeyStates 1)
      = [true, false, true, false] :=
  have h := (C20_disconnect_keeps_polling sampleConfig 0
    (globalsOf { sessionIn UhkModulePhase_ProcessKeystates (messageOf [5]) with
      features := [4, 0], isEnumerated := true })).2 (by decide)
  ⟨h.2.1 2 (by decide) rfl (List.replicate 3 (sampleEnv 0 0 (messageOf [5]) true)),
    (h.1 (List.replicate 3 (sampleEnv 0 0 (messageOf [5]) true, 0))).1, by decide⟩

end UhkModuleDriver
